import Mathlib

set_option maxRecDepth 100000

/-!
Verification development for the SimpleSynth repository: the monophonic
synthesizer plugin (`SimpleSynth/src/PluginProcessor.cpp`) and its offline
stdin/stdout host (`SimpleSynthHost/Source/Main.cpp`).

Modelling conventions.

* C++ `float` arithmetic is modelled exactly: a binary32 value is the
  rational it denotes, and every arithmetic operation is composed with
  `round32`, round-to-nearest-even at 24 significant bits (the values
  reached by this program stay far away from overflow and subnormals, so
  exponent-range effects never arise).  `qlog2` is an executable floor
  base-2 logarithm on positive rationals, built from the bit length
  `bitLen` so that everything reduces in the kernel.
* Machine integers of the host loop (`totalSamplesProcessed` etc.) are
  modelled as naturals reduced mod 2^32, read back through the twos-complement
  reinterpretation `int32ToInt`, so that overflow behaves the
  way the hardware behaves.
* MIDI messages are modelled with raw data bytes (as `juce::MidiMessage`
  itself stores them); the `v/127` velocity scaling of the reader is the
  definition `velScaled`.
* The transcendental `std::sin(phase * twoPi)` is kept abstract as a
  function parameter `sinf` of the voice model; claims about it only use
  the bound `|sinf p| ≤ 1`.
-/

namespace SimpleSynth

/-! ### Exact binary32 rounding -/

/-- Bit length of a natural number, fuel-driven so that it is structural
recursion and reduces in the kernel. -/
def bitLenAux : ℕ → ℕ → ℕ
  | 0, _ => 0
  | fuel+1, n => if n = 0 then 0 else bitLenAux fuel (n / 2) + 1

/-- Bit length: `bitLen n = ⌊log₂ n⌋ + 1` for `n ≥ 1`, and `0` at `0`. -/
def bitLen (n : ℕ) : ℕ := bitLenAux n n

/-- Floor base-2 logarithm of a positive rational, computed from the bit
lengths of numerator and denominator with a final correction step. -/
def qlog2 (x : ℚ) : ℤ :=
  if 2 ^ ((bitLen x.num.natAbs : ℤ) - (bitLen x.den : ℤ)) ≤ x then
    (bitLen x.num.natAbs : ℤ) - (bitLen x.den : ℤ)
  else (bitLen x.num.natAbs : ℤ) - (bitLen x.den : ℤ) - 1

/-- Round a rational to the nearest integer, ties to even. -/
def rndNE (m : ℚ) : ℤ :=
  if m - ⌊m⌋ < 1/2 then ⌊m⌋
  else if (1:ℚ)/2 < m - ⌊m⌋ then ⌊m⌋ + 1
  else if ⌊m⌋ % 2 = 0 then ⌊m⌋ else ⌊m⌋ + 1

/-- Round a rational to the nearest IEEE-754 binary32 value (24 significant
bits, round to nearest, ties to even); exponent range is unbounded, which is
faithful for all values this program produces. -/
def round32 (x : ℚ) : ℚ :=
  if x = 0 then 0
  else
    (if x < 0 then (-1 : ℚ) else 1) * (rndNE (|x| / 2 ^ (qlog2 |x| - 23)) : ℚ) *
      2 ^ (qlog2 |x| - 23)

/-- Addition in `float`. -/
def fadd32 (a b : ℚ) : ℚ := round32 (a + b)

/-- Subtraction in `float`. -/
def fsub32 (a b : ℚ) : ℚ := round32 (a - b)

/-- Multiplication in `float`. -/
def fmul32 (a b : ℚ) : ℚ := round32 (a * b)

/-- Division in `float`. -/
def fdiv32 (a b : ℚ) : ℚ := round32 (a / b)

theorem bitLenAux_zero (fuel : ℕ) : bitLenAux fuel 0 = 0 := by
  cases fuel <;> simp [bitLenAux]

theorem bitLenAux_spec : ∀ fuel n : ℕ, 1 ≤ n → n ≤ fuel →
    2 ^ (bitLenAux fuel n - 1) ≤ n ∧ n < 2 ^ bitLenAux fuel n := by
  intro fuel
  induction fuel with
  | zero => intro n h1 h2; omega
  | succ f ih =>
    intro n h1 h2
    by_cases hone : n = 1
    · subst hone
      simp [bitLenAux, bitLenAux_zero]
    · have hn2 : 2 ≤ n := by omega
      have hm1 : 1 ≤ n / 2 := by omega
      have hmf : n / 2 ≤ f := by omega
      obtain ⟨hlo, hhi⟩ := ih (n / 2) hm1 hmf
      have hne : ¬ n = 0 := by omega
      have hk1 : 1 ≤ bitLenAux f (n / 2) := by
        rcases Nat.eq_zero_or_pos (bitLenAux f (n / 2)) with h0 | h0
        · rw [h0] at hhi; simp at hhi; omega
        · exact h0
      rw [bitLenAux, if_neg hne]
      obtain ⟨k2, hk2⟩ : ∃ k2, bitLenAux f (n / 2) = k2 + 1 :=
        ⟨bitLenAux f (n / 2) - 1, by omega⟩
      rw [hk2] at hlo hhi ⊢
      simp only [Nat.add_sub_cancel] at hlo
      have e1 : 2 ^ (k2 + 1) = 2 * 2 ^ k2 := by ring
      have e2 : 2 ^ (k2 + 1 + 1) = 4 * 2 ^ k2 := by ring
      have e3 : 2 ^ (k2 + 1 + 1 - 1) = 2 * 2 ^ k2 := by
        have : k2 + 1 + 1 - 1 = k2 + 1 := by omega
        rw [this]; ring
      rw [e1] at hhi
      constructor
      · rw [e3]; omega
      · rw [e2]; omega

theorem bitLen_spec (n : ℕ) (h : 1 ≤ n) :
    2 ^ (bitLen n - 1) ≤ n ∧ n < 2 ^ bitLen n :=
  bitLenAux_spec n n h le_rfl

theorem qlog2_spec (x : ℚ) (hx : 0 < x) :
    (2:ℚ) ^ qlog2 x ≤ x ∧ x < 2 ^ (qlog2 x + 1) := by
  have hnum : 0 < x.num := Rat.num_pos.mpr hx
  have hp : 1 ≤ x.num.natAbs := by omega
  have hq : 1 ≤ x.den := x.pos
  obtain ⟨hp1, hp2⟩ := bitLen_spec x.num.natAbs hp
  obtain ⟨hq1, hq2⟩ := bitLen_spec x.den hq
  obtain ⟨a, ha⟩ : ∃ a, bitLen x.num.natAbs = a + 1 := by
    have : 1 ≤ bitLen x.num.natAbs := by
      rcases Nat.eq_zero_or_pos (bitLen x.num.natAbs) with h0 | h0
      · rw [h0] at hp2; simp only [pow_zero] at hp2; omega
      · exact h0
    exact ⟨bitLen x.num.natAbs - 1, by omega⟩
  obtain ⟨b, hb⟩ : ∃ b, bitLen x.den = b + 1 := by
    have : 1 ≤ bitLen x.den := by
      rcases Nat.eq_zero_or_pos (bitLen x.den) with h0 | h0
      · rw [h0] at hq2; simp only [pow_zero] at hq2; omega
      · exact h0
    exact ⟨bitLen x.den - 1, by omega⟩
  rw [ha] at hp1 hp2
  rw [hb] at hq1 hq2
  simp only [Nat.add_sub_cancel] at hp1 hq1
  have h1 : ((x.num.natAbs : ℤ)) = x.num := Int.natAbs_of_nonneg (le_of_lt hnum)
  have hp1z : (2:ℤ) ^ a ≤ x.num := by rw [← h1]; exact_mod_cast hp1
  have hp2z : x.num < (2:ℤ) ^ (a+1) := by rw [← h1]; exact_mod_cast hp2
  -- express x as the quotient of its numerator and denominator
  have hxeq : x = (x.num : ℚ) / (x.den : ℚ) := (Rat.num_div_den x).symm
  have hden_pos : (0:ℚ) < (x.den : ℚ) := by positivity
  -- rational bounds from the bit-length bounds
  have hP1 : (2:ℚ) ^ (a:ℕ) ≤ (x.num : ℚ) := by exact_mod_cast hp1z
  have hP2 : (x.num : ℚ) < 2 ^ (a+1 : ℕ) := by exact_mod_cast hp2z
  have hQ1 : (2:ℚ) ^ (b:ℕ) ≤ (x.den : ℚ) := by exact_mod_cast hq1
  have hQ2 : (x.den : ℚ) < 2 ^ (b+1 : ℕ) := by exact_mod_cast hq2
  have hxlo : (2:ℚ) ^ ((a:ℤ) - (b+1)) ≤ x := by
    have step : (2:ℚ) ^ (a:ℕ) / 2 ^ (b+1 : ℕ) ≤ (x.num : ℚ) / (x.den : ℚ) :=
      div_le_div (by positivity) hP1 hden_pos (le_of_lt hQ2)
    calc (2:ℚ) ^ ((a:ℤ) - (b+1)) = (2:ℚ) ^ (a:ℤ) / (2:ℚ) ^ ((b:ℤ)+1) := by
          rw [zpow_sub₀ (by norm_num : (2:ℚ) ≠ 0)]
    _ = (2:ℚ) ^ (a:ℕ) / 2 ^ (b+1 : ℕ) := by
          rw [← zpow_natCast (2:ℚ) a, ← zpow_natCast (2:ℚ) (b+1)]; push_cast; ring_nf
    _ ≤ (x.num : ℚ) / (x.den : ℚ) := step
    _ = x := hxeq.symm
  have hxhi : x < (2:ℚ) ^ ((a:ℤ) + 1 - b) := by
    have step : (x.num : ℚ) / (x.den : ℚ) < (2:ℚ) ^ (a+1 : ℕ) / 2 ^ (b : ℕ) := by
      rw [div_lt_div_iff hden_pos (by positivity)]
      calc (x.num : ℚ) * 2 ^ (b:ℕ) < 2 ^ (a+1 : ℕ) * 2 ^ (b:ℕ) := by
            exact mul_lt_mul_of_pos_right hP2 (by positivity)
      _ ≤ 2 ^ (a+1 : ℕ) * (x.den : ℚ) := by
            exact mul_le_mul_of_nonneg_left hQ1 (by positivity)
    calc x = (x.num : ℚ) / (x.den : ℚ) := hxeq
    _ < (2:ℚ) ^ (a+1 : ℕ) / 2 ^ (b : ℕ) := step
    _ = (2:ℚ) ^ ((a:ℤ) + 1 - b) := by
          rw [zpow_sub₀ (by norm_num : (2:ℚ) ≠ 0)]
          rw [← zpow_natCast (2:ℚ) (a+1), ← zpow_natCast (2:ℚ) b]; push_cast; ring_nf
  have hk : (bitLen x.num.natAbs : ℤ) - (bitLen x.den : ℤ) = (a:ℤ) - b := by
    rw [ha, hb]; push_cast; ring
  rw [qlog2, hk]
  by_cases hcase : (2:ℚ) ^ ((a:ℤ) - b) ≤ x
  · rw [if_pos hcase]
    refine ⟨hcase, ?_⟩
    have : (a:ℤ) - b + 1 = (a:ℤ) + 1 - b := by ring
    rw [this]; exact hxhi
  · rw [if_neg hcase]
    constructor
    · have : (a:ℤ) - b - 1 = (a:ℤ) - (b+1) := by ring
      rw [this]; exact hxlo
    · have : (a:ℤ) - b - 1 + 1 = (a:ℤ) - b := by ring
      rw [this]; exact lt_of_not_le hcase

theorem qlog2_unique (x : ℚ) (L : ℤ) (hx : 0 < x)
    (h1 : (2:ℚ) ^ L ≤ x) (h2 : x < 2 ^ (L+1)) : qlog2 x = L := by
  obtain ⟨s1, s2⟩ := qlog2_spec x hx
  by_contra hne
  rcases lt_or_gt_of_ne hne with h | h
  · have hle : qlog2 x + 1 ≤ L := by omega
    have := lt_of_lt_of_le s2 (zpow_le_zpow_right₀ (by norm_num : (1:ℚ) ≤ 2) hle)
    exact absurd h1 (not_le.mpr this)
  · have hle : L + 1 ≤ qlog2 x := by omega
    have := lt_of_lt_of_le h2 (zpow_le_zpow_right₀ (by norm_num : (1:ℚ) ≤ 2) hle)
    exact absurd s1 (not_le.mpr this)

theorem round32_of_pos (x : ℚ) (hx : 0 < x) :
    round32 x = ((rndNE (x / 2 ^ (qlog2 x - 23)) : ℤ) : ℚ) * 2 ^ (qlog2 x - 23) := by
  rw [round32, if_neg (ne_of_gt hx), if_neg (not_lt.mpr (le_of_lt hx)),
    abs_of_pos hx, one_mul]

theorem round32_pos_eval (x : ℚ) (L : ℤ) (hx : 0 < x)
    (h1 : (2:ℚ) ^ L ≤ x) (h2 : x < 2 ^ (L+1)) :
    round32 x = ((rndNE (x / 2 ^ (L - 23)) : ℤ) : ℚ) * 2 ^ (L - 23) := by
  rw [round32_of_pos x hx, qlog2_unique x L hx h1 h2]

theorem rndNE_cases (m : ℚ) : rndNE m = ⌊m⌋ ∨ rndNE m = ⌊m⌋ + 1 := by
  unfold rndNE
  split_ifs <;> simp

theorem round32_zero : round32 0 = 0 := by simp [round32]

theorem round32_nonneg (x : ℚ) (h : 0 ≤ x) : 0 ≤ round32 x := by
  rcases h.eq_or_lt with h0 | h0
  · rw [← h0, round32_zero]
  · rw [round32_of_pos x h0]
    have hm : (0:ℚ) ≤ x / 2 ^ (qlog2 x - 23) := by positivity
    have hf : (0:ℤ) ≤ ⌊x / 2 ^ (qlog2 x - 23)⌋ := Int.floor_nonneg.mpr hm
    have hr : (0:ℤ) ≤ rndNE (x / 2 ^ (qlog2 x - 23)) := by
      rcases rndNE_cases (x / 2 ^ (qlog2 x - 23)) with hc | hc <;> rw [hc] <;> omega
    have : (0:ℚ) ≤ (rndNE (x / 2 ^ (qlog2 x - 23)) : ℚ) := by exact_mod_cast hr
    positivity

theorem round32_neg (x : ℚ) : round32 (-x) = - round32 x := by
  rcases lt_trichotomy x 0 with h | h | h
  · rw [round32, round32,
      if_neg (show ¬ -x = 0 by intro hc; apply ne_of_lt h; linarith),
      if_neg (by linarith : ¬ (-x < 0)), if_neg (ne_of_lt h), if_pos h, abs_neg]
    ring
  · subst h; simp [round32]
  · rw [round32, round32, if_neg (by intro hc; apply ne_of_gt h; linarith),
      if_pos (by linarith : -x < 0), if_neg (ne_of_gt h),
      if_neg (not_lt.mpr (le_of_lt h)), abs_neg]
    ring

theorem round32_nonpos (x : ℚ) (h : x ≤ 0) : round32 x ≤ 0 := by
  have h2 : (0:ℚ) ≤ -x := by linarith
  have := round32_nonneg (-x) h2
  rw [round32_neg x] at this
  linarith

theorem round32_zpow (k : ℤ) : round32 ((2:ℚ) ^ k) = 2 ^ k := by
  have hpos : (0:ℚ) < 2 ^ k := by positivity
  have h2 : (2:ℚ) ^ k < 2 ^ (k+1) :=
    zpow_lt_zpow_right₀ (by norm_num : (1:ℚ) < 2) (by omega)
  rw [round32_pos_eval _ k hpos le_rfl h2]
  have hm : (2:ℚ) ^ k / 2 ^ (k - 23) = 2 ^ (23:ℕ) := by
    rw [← zpow_natCast (2:ℚ) 23, ← zpow_sub₀ (by norm_num : (2:ℚ) ≠ 0)]
    norm_num
  rw [hm]
  have hr : rndNE ((2:ℚ) ^ (23:ℕ)) = 8388608 := by norm_num [rndNE]
  rw [hr]
  rw [show ((8388608 : ℤ) : ℚ) = 2 ^ (23:ℕ) by norm_num]
  rw [← zpow_natCast (2:ℚ) 23, ← zpow_add₀ (by norm_num : (2:ℚ) ≠ 0)]
  norm_num

theorem round32_le_zpow (x : ℚ) (k : ℤ) (h0 : 0 ≤ x) (h : x ≤ 2 ^ k) :
    round32 x ≤ 2 ^ k := by
  rcases h0.eq_or_lt with hz | hz
  · rw [← hz, round32_zero]; positivity
  rcases h.lt_or_eq with hlt | heq
  · have hspec := qlog2_spec x hz
    have hLk : qlog2 x + 1 ≤ k := by
      by_contra hc
      have hk : k ≤ qlog2 x := by omega
      have : (2:ℚ) ^ k ≤ 2 ^ qlog2 x :=
        zpow_le_zpow_right₀ (by norm_num : (1:ℚ) ≤ 2) hk
      linarith [hspec.1]
    rw [round32_of_pos x hz]
    have hzpos : (0:ℚ) < 2 ^ (qlog2 x - 23) := by positivity
    have hmval : x / 2 ^ (qlog2 x - 23) < 2 ^ (24:ℕ) := by
      rw [div_lt_iff hzpos]
      calc x < 2 ^ (qlog2 x + 1) := hspec.2
      _ = 2 ^ (24:ℕ) * 2 ^ (qlog2 x - 23) := by
          rw [← zpow_natCast (2:ℚ) 24, ← zpow_add₀ (by norm_num : (2:ℚ) ≠ 0)]
          congr 1; omega
    have hfl : ⌊x / 2 ^ (qlog2 x - 23)⌋ < (16777216 : ℤ) := by
      rw [Int.floor_lt]; exact_mod_cast hmval
    have hrnd : rndNE (x / 2 ^ (qlog2 x - 23)) ≤ (16777216 : ℤ) := by
      rcases rndNE_cases (x / 2 ^ (qlog2 x - 23)) with hc | hc <;> rw [hc] <;> omega
    have hrndq : ((rndNE (x / 2 ^ (qlog2 x - 23)) : ℤ) : ℚ) ≤ (16777216 : ℚ) := by
      exact_mod_cast hrnd
    calc ((rndNE (x / 2 ^ (qlog2 x - 23)) : ℤ) : ℚ) * 2 ^ (qlog2 x - 23)
        ≤ (16777216 : ℚ) * 2 ^ (qlog2 x - 23) :=
          mul_le_mul_of_nonneg_right hrndq (le_of_lt hzpos)
    _ = 2 ^ (qlog2 x + 1) := by
          rw [show (16777216 : ℚ) = 2 ^ (24:ℕ) by norm_num,
            ← zpow_natCast (2:ℚ) 24, ← zpow_add₀ (by norm_num : (2:ℚ) ≠ 0)]
          congr 1; omega
    _ ≤ 2 ^ k := zpow_le_zpow_right₀ (by norm_num : (1:ℚ) ≤ 2) hLk
  · rw [heq, round32_zpow]

theorem round32_zpow_le (x : ℚ) (k : ℤ) (h : (2:ℚ) ^ k ≤ x) :
    (2:ℚ) ^ k ≤ round32 x := by
  have hz : 0 < x := lt_of_lt_of_le (by positivity) h
  have hspec := qlog2_spec x hz
  have hkL : k ≤ qlog2 x := by
    by_contra hc
    have hk : qlog2 x + 1 ≤ k := by omega
    have : (2:ℚ) ^ (qlog2 x + 1) ≤ 2 ^ k :=
      zpow_le_zpow_right₀ (by norm_num : (1:ℚ) ≤ 2) hk
    linarith [hspec.2]
  rw [round32_of_pos x hz]
  have hzpos : (0:ℚ) < 2 ^ (qlog2 x - 23) := by positivity
  have hmval : (2:ℚ) ^ (23:ℕ) ≤ x / 2 ^ (qlog2 x - 23) := by
    rw [le_div_iff hzpos]
    calc (2:ℚ) ^ (23:ℕ) * 2 ^ (qlog2 x - 23) = 2 ^ qlog2 x := by
          rw [← zpow_natCast (2:ℚ) 23, ← zpow_add₀ (by norm_num : (2:ℚ) ≠ 0)]
          congr 1; omega
    _ ≤ x := hspec.1
  have hfl : (8388608 : ℤ) ≤ ⌊x / 2 ^ (qlog2 x - 23)⌋ := by
    rw [Int.le_floor]
    calc ((8388608 : ℤ) : ℚ) = 2 ^ (23:ℕ) := by norm_num
    _ ≤ x / 2 ^ (qlog2 x - 23) := hmval
  have hrnd : (8388608 : ℤ) ≤ rndNE (x / 2 ^ (qlog2 x - 23)) := by
    rcases rndNE_cases (x / 2 ^ (qlog2 x - 23)) with hc | hc <;> rw [hc] <;> omega
  have hrndq : (8388608 : ℚ) ≤ ((rndNE (x / 2 ^ (qlog2 x - 23)) : ℤ) : ℚ) := by
    exact_mod_cast hrnd
  calc (2:ℚ) ^ k ≤ 2 ^ qlog2 x :=
        zpow_le_zpow_right₀ (by norm_num : (1:ℚ) ≤ 2) hkL
  _ = (8388608 : ℚ) * 2 ^ (qlog2 x - 23) := by
        rw [show (8388608 : ℚ) = 2 ^ (23:ℕ) by norm_num,
          ← zpow_natCast (2:ℚ) 23, ← zpow_add₀ (by norm_num : (2:ℚ) ≠ 0)]
        congr 1; omega
  _ ≤ ((rndNE (x / 2 ^ (qlog2 x - 23)) : ℤ) : ℚ) * 2 ^ (qlog2 x - 23) :=
        mul_le_mul_of_nonneg_right hrndq (le_of_lt hzpos)

theorem round32_abs_le_zpow (x : ℚ) (k : ℤ) (h : |x| ≤ 2 ^ k) :
    |round32 x| ≤ 2 ^ k := by
  rcases le_or_lt 0 x with hx | hx
  · rw [abs_of_nonneg (round32_nonneg x hx)]
    exact round32_le_zpow x k hx (by rwa [abs_of_nonneg hx] at h)
  · have h2 : |(-x)| ≤ 2 ^ k := by rwa [abs_neg]
    have h3 : (0:ℚ) ≤ -x := by linarith
    have := round32_le_zpow (-x) k h3 (by rwa [abs_of_nonneg h3] at h2)
    rw [round32_neg x] at this
    rw [abs_of_nonpos (round32_nonpos x (le_of_lt hx))]
    linarith

theorem round32_abs_le_one (x : ℚ) (h : |x| ≤ 1) : |round32 x| ≤ 1 := by
  have := round32_abs_le_zpow x 0 (by simpa using h)
  simpa using this

/-! ### Envelope Tracker

`PluginProcessor.cpp`, `processBlock`:
```
if (noteOn)
    envelope = juce::jmin(envelope + 0.01f, 1.0f); // Attack
else
    envelope = juce::jmax(envelope - 0.02f, 0.0f); // Release
```
`lit001` and `lit002` are the exact values of the `float` literals
`0.01f` and `0.02f`. -/

def lit001 : ℚ := round32 (1/100)

def lit002 : ℚ := round32 (1/50)

theorem lit001_eq : lit001 = 5368709/536870912 := by
  rw [lit001, round32_pos_eval _ (-7) (by norm_num) (by norm_num) (by norm_num)]
  norm_num [rndNE]

theorem lit002_eq : lit002 = 5368709/268435456 := by
  rw [lit002, round32_pos_eval _ (-6) (by norm_num) (by norm_num) (by norm_num)]
  norm_num [rndNE]

/-- One per-sample envelope update of `processBlock`. -/
def envStep (noteOn : Bool) (e : ℚ) : ℚ :=
  if noteOn then min (fadd32 e lit001) 1 else max (fsub32 e lit002) 0

/-- Envelope after `n` consecutive note-on samples starting from `0`. -/
def envAttack : ℕ → ℚ
  | 0 => 0
  | n+1 => envStep true (envAttack n)

/-- Envelope after `n` consecutive note-off samples starting from `1`. -/
def envRelease : ℕ → ℚ
  | 0 => 1
  | n+1 => envStep false (envRelease n)

/-- Envelope after an arbitrary sequence of per-sample note-on flags. -/
def envRun (bs : List Bool) (e : ℚ) : ℚ := bs.foldl (fun a b => envStep b a) e

theorem lit001_pos : 0 < lit001 := by rw [lit001_eq]; norm_num

theorem lit002_pos : 0 < lit002 := by rw [lit002_eq]; norm_num

/-- The envelope update keeps the envelope inside `[0,1]`. -/
theorem envStep_mem (b : Bool) (e : ℚ) (h0 : 0 ≤ e) (h1 : e ≤ 1) :
    0 ≤ envStep b e ∧ envStep b e ≤ 1 := by
  cases b with
  | false =>
    constructor
    · simp [envStep]
    · simp only [envStep, Bool.false_eq_true, if_false, max_le_iff]
      refine ⟨?_, by norm_num⟩
      rcases le_or_lt (e - lit002) 0 with hc | hc
      · exact le_trans (round32_nonpos _ hc) (by norm_num)
      · have hle : e - lit002 ≤ 1 := by linarith [lit002_pos]
        have := round32_le_zpow (e - lit002) 0 (le_of_lt hc) (by simpa using hle)
        simpa [fsub32] using this
  | true =>
    constructor
    · simp only [envStep, if_true, le_min_iff]
      refine ⟨?_, by norm_num⟩
      have hpos : 0 ≤ e + lit001 := by linarith [lit001_pos]
      exact round32_nonneg _ hpos
    · simp [envStep]

/-- Any sequence of envelope updates keeps the envelope inside `[0,1]`. -/
theorem envRun_mem (bs : List Bool) (e : ℚ) (h0 : 0 ≤ e) (h1 : e ≤ 1) :
    0 ≤ envRun bs e ∧ envRun bs e ≤ 1 := by
  induction bs generalizing e with
  | nil => exact ⟨h0, h1⟩
  | cons b bs ih =>
    obtain ⟨s0, s1⟩ := envStep_mem b e h0 h1
    simpa [envRun] using ih (envStep b e) s0 s1

/-- Evaluation helper: one attack update with an explicitly given rounding
result `r` that does not hit the `1.0` clamp. -/
theorem envStep_true_eval (e r : ℚ) (L : ℤ)
    (h1 : (2:ℚ) ^ L ≤ e + lit001) (h2 : e + lit001 < 2 ^ (L+1))
    (h3 : ((rndNE ((e + lit001) / 2 ^ (L - 23)) : ℤ) : ℚ) * 2 ^ (L - 23) = r)
    (h4 : r ≤ 1) : envStep true e = r := by
  have hpos : 0 < e + lit001 := lt_of_lt_of_le (by positivity) h1
  rw [envStep, if_pos rfl, fadd32, round32_pos_eval _ L hpos h1 h2, h3,
    min_eq_left h4]

/-- Evaluation helper: one attack update that saturates at `1.0`. -/
theorem envStep_true_sat (e : ℚ) (h : 1 ≤ e + lit001) : envStep true e = 1 := by
  have h1 : (1:ℚ) ≤ round32 (e + lit001) := by
    have := round32_zpow_le (e + lit001) 0 (by simpa using h)
    simpa using this
  rw [envStep, if_pos rfl, fadd32, min_eq_right h1]

/-- Evaluation helper: one release update with an explicitly given rounding
result `r` that does not hit the `0.0` clamp. -/
theorem envStep_false_eval (e r : ℚ) (L : ℤ)
    (h1 : (2:ℚ) ^ L ≤ e - lit002) (h2 : e - lit002 < 2 ^ (L+1))
    (h3 : ((rndNE ((e - lit002) / 2 ^ (L - 23)) : ℤ) : ℚ) * 2 ^ (L - 23) = r)
    (h4 : 0 ≤ r) : envStep false e = r := by
  have hpos : 0 < e - lit002 := lt_of_lt_of_le (by positivity) h1
  rw [envStep, if_neg (by simp), fsub32, round32_pos_eval _ L hpos h1 h2, h3,
    max_eq_left h4]

/-- Evaluation helper: one release update that clamps at `0.0`. -/
theorem envStep_false_bot (e : ℚ) (h : e ≤ lit002) : envStep false e = 0 := by
  have h1 : round32 (e - lit002) ≤ 0 := round32_nonpos _ (by linarith)
  rw [envStep, if_neg (by simp), fsub32, max_eq_right h1]

/-! ### Exact float32 envelope traces (attack from 0, release from 1) -/

theorem att1 : envAttack 1 = 5368709/536870912 := by
  rw [show (1:ℕ) = 0+1 from rfl, envAttack, envAttack]
  exact envStep_true_eval _ _ (-7) (by norm_num [lit001_eq])
    (by norm_num [lit001_eq]) (by norm_num [lit001_eq, rndNE]) (by norm_num)

theorem att2 : envAttack 2 = 5368709/268435456 := by
  rw [show (2:ℕ) = 1+1 from rfl, envAttack, att1]
  exact envStep_true_eval _ _ (-6) (by norm_num [lit001_eq])
    (by norm_num [lit001_eq]) (by norm_num [lit001_eq, rndNE]) (by norm_num)

theorem att3 : envAttack 3 = 16106127/536870912 := by
  rw [show (3:ℕ) = 2+1 from rfl, envAttack, att2]
  exact envStep_true_eval _ _ (-6) (by norm_num [lit001_eq])
    (by norm_num [lit001_eq]) (by norm_num [lit001_eq, rndNE]) (by norm_num)

theorem att4 : envAttack 4 = 5368709/134217728 := by
  rw [show (4:ℕ) = 3+1 from rfl, envAttack, att3]
  exact envStep_true_eval _ _ (-5) (by norm_num [lit001_eq])
    (by norm_num [lit001_eq]) (by norm_num [lit001_eq, rndNE]) (by norm_num)

theorem att5 : envAttack 5 = 3355443/67108864 := by
  rw [show (5:ℕ) = 4+1 from rfl, envAttack, att4]
  exact envStep_true_eval _ _ (-5) (by norm_num [lit001_eq])
    (by norm_num [lit001_eq]) (by norm_num [lit001_eq, rndNE]) (by norm_num)

theorem att6 : envAttack 6 = 8053063/134217728 := by
  rw [show (6:ℕ) = 5+1 from rfl, envAttack, att5]
  exact envStep_true_eval _ _ (-5) (by norm_num [lit001_eq])
    (by norm_num [lit001_eq]) (by norm_num [lit001_eq, rndNE]) (by norm_num)

theorem att7 : envAttack 7 = 1174405/16777216 := by
  rw [show (7:ℕ) = 6+1 from rfl, envAttack, att6]
  exact envStep_true_eval _ _ (-4) (by norm_num [lit001_eq])
    (by norm_num [lit001_eq]) (by norm_num [lit001_eq, rndNE]) (by norm_num)

theorem att8 : envAttack 8 = 10737417/134217728 := by
  rw [show (8:ℕ) = 7+1 from rfl, envAttack, att7]
  exact envStep_true_eval _ _ (-4) (by norm_num [lit001_eq])
    (by norm_num [lit001_eq]) (by norm_num [lit001_eq, rndNE]) (by norm_num)

theorem att9 : envAttack 9 = 6039797/67108864 := by
  rw [show (9:ℕ) = 8+1 from rfl, envAttack, att8]
  exact envStep_true_eval _ _ (-4) (by norm_num [lit001_eq])
    (by norm_num [lit001_eq]) (by norm_num [lit001_eq, rndNE]) (by norm_num)

theorem att10 : envAttack 10 = 13421771/134217728 := by
  rw [show (10:ℕ) = 9+1 from rfl, envAttack, att9]
  exact envStep_true_eval _ _ (-4) (by norm_num [lit001_eq])
    (by norm_num [lit001_eq]) (by norm_num [lit001_eq, rndNE]) (by norm_num)

theorem att11 : envAttack 11 = 3690987/33554432 := by
  rw [show (11:ℕ) = 10+1 from rfl, envAttack, att10]
  exact envStep_true_eval _ _ (-4) (by norm_num [lit001_eq])
    (by norm_num [lit001_eq]) (by norm_num [lit001_eq, rndNE]) (by norm_num)

theorem att12 : envAttack 12 = 16106125/134217728 := by
  rw [show (12:ℕ) = 11+1 from rfl, envAttack, att11]
  exact envStep_true_eval _ _ (-4) (by norm_num [lit001_eq])
    (by norm_num [lit001_eq]) (by norm_num [lit001_eq, rndNE]) (by norm_num)

theorem att13 : envAttack 13 = 8724151/67108864 := by
  rw [show (13:ℕ) = 12+1 from rfl, envAttack, att12]
  exact envStep_true_eval _ _ (-3) (by norm_num [lit001_eq])
    (by norm_num [lit001_eq]) (by norm_num [lit001_eq, rndNE]) (by norm_num)

theorem att14 : envAttack 14 = 1174405/8388608 := by
  rw [show (14:ℕ) = 13+1 from rfl, envAttack, att13]
  exact envStep_true_eval _ _ (-3) (by norm_num [lit001_eq])
    (by norm_num [lit001_eq]) (by norm_num [lit001_eq, rndNE]) (by norm_num)

theorem att15 : envAttack 15 = 10066329/67108864 := by
  rw [show (15:ℕ) = 14+1 from rfl, envAttack, att14]
  exact envStep_true_eval _ _ (-3) (by norm_num [lit001_eq])
    (by norm_num [lit001_eq]) (by norm_num [lit001_eq, rndNE]) (by norm_num)

theorem att16 : envAttack 16 = 5368709/33554432 := by
  rw [show (16:ℕ) = 15+1 from rfl, envAttack, att15]
  exact envStep_true_eval _ _ (-3) (by norm_num [lit001_eq])
    (by norm_num [lit001_eq]) (by norm_num [lit001_eq, rndNE]) (by norm_num)

theorem att17 : envAttack 17 = 11408507/67108864 := by
  rw [show (17:ℕ) = 16+1 from rfl, envAttack, att16]
  exact envStep_true_eval _ _ (-3) (by norm_num [lit001_eq])
    (by norm_num [lit001_eq]) (by norm_num [lit001_eq, rndNE]) (by norm_num)

theorem att18 : envAttack 18 = 3019899/16777216 := by
  rw [show (18:ℕ) = 17+1 from rfl, envAttack, att17]
  exact envStep_true_eval _ _ (-3) (by norm_num [lit001_eq])
    (by norm_num [lit001_eq]) (by norm_num [lit001_eq, rndNE]) (by norm_num)

theorem att19 : envAttack 19 = 12750685/67108864 := by
  rw [show (19:ℕ) = 18+1 from rfl, envAttack, att18]
  exact envStep_true_eval _ _ (-3) (by norm_num [lit001_eq])
    (by norm_num [lit001_eq]) (by norm_num [lit001_eq, rndNE]) (by norm_num)

theorem att20 : envAttack 20 = 6710887/33554432 := by
  rw [show (20:ℕ) = 19+1 from rfl, envAttack, att19]
  exact envStep_true_eval _ _ (-3) (by norm_num [lit001_eq])
    (by norm_num [lit001_eq]) (by norm_num [lit001_eq, rndNE]) (by norm_num)

theorem att21 : envAttack 21 = 14092863/67108864 := by
  rw [show (21:ℕ) = 20+1 from rfl, envAttack, att20]
  exact envStep_true_eval _ _ (-3) (by norm_num [lit001_eq])
    (by norm_num [lit001_eq]) (by norm_num [lit001_eq, rndNE]) (by norm_num)

theorem att22 : envAttack 22 = 922747/4194304 := by
  rw [show (22:ℕ) = 21+1 from rfl, envAttack, att21]
  exact envStep_true_eval _ _ (-3) (by norm_num [lit001_eq])
    (by norm_num [lit001_eq]) (by norm_num [lit001_eq, rndNE]) (by norm_num)

theorem att23 : envAttack 23 = 15435041/67108864 := by
  rw [show (23:ℕ) = 22+1 from rfl, envAttack, att22]
  exact envStep_true_eval _ _ (-3) (by norm_num [lit001_eq])
    (by norm_num [lit001_eq]) (by norm_num [lit001_eq, rndNE]) (by norm_num)

theorem att24 : envAttack 24 = 8053065/33554432 := by
  rw [show (24:ℕ) = 23+1 from rfl, envAttack, att23]
  exact envStep_true_eval _ _ (-3) (by norm_num [lit001_eq])
    (by norm_num [lit001_eq]) (by norm_num [lit001_eq, rndNE]) (by norm_num)

theorem att25 : envAttack 25 = 8388609/33554432 := by
  rw [show (25:ℕ) = 24+1 from rfl, envAttack, att24]
  exact envStep_true_eval _ _ (-2) (by norm_num [lit001_eq])
    (by norm_num [lit001_eq]) (by norm_num [lit001_eq, rndNE]) (by norm_num)

theorem att26 : envAttack 26 = 8724153/33554432 := by
  rw [show (26:ℕ) = 25+1 from rfl, envAttack, att25]
  exact envStep_true_eval _ _ (-2) (by norm_num [lit001_eq])
    (by norm_num [lit001_eq]) (by norm_num [lit001_eq, rndNE]) (by norm_num)

theorem att27 : envAttack 27 = 9059697/33554432 := by
  rw [show (27:ℕ) = 26+1 from rfl, envAttack, att26]
  exact envStep_true_eval _ _ (-2) (by norm_num [lit001_eq])
    (by norm_num [lit001_eq]) (by norm_num [lit001_eq, rndNE]) (by norm_num)

theorem att28 : envAttack 28 = 9395241/33554432 := by
  rw [show (28:ℕ) = 27+1 from rfl, envAttack, att27]
  exact envStep_true_eval _ _ (-2) (by norm_num [lit001_eq])
    (by norm_num [lit001_eq]) (by norm_num [lit001_eq, rndNE]) (by norm_num)

theorem att29 : envAttack 29 = 9730785/33554432 := by
  rw [show (29:ℕ) = 28+1 from rfl, envAttack, att28]
  exact envStep_true_eval _ _ (-2) (by norm_num [lit001_eq])
    (by norm_num [lit001_eq]) (by norm_num [lit001_eq, rndNE]) (by norm_num)

theorem att30 : envAttack 30 = 10066329/33554432 := by
  rw [show (30:ℕ) = 29+1 from rfl, envAttack, att29]
  exact envStep_true_eval _ _ (-2) (by norm_num [lit001_eq])
    (by norm_num [lit001_eq]) (by norm_num [lit001_eq, rndNE]) (by norm_num)

theorem att31 : envAttack 31 = 10401873/33554432 := by
  rw [show (31:ℕ) = 30+1 from rfl, envAttack, att30]
  exact envStep_true_eval _ _ (-2) (by norm_num [lit001_eq])
    (by norm_num [lit001_eq]) (by norm_num [lit001_eq, rndNE]) (by norm_num)

theorem att32 : envAttack 32 = 10737417/33554432 := by
  rw [show (32:ℕ) = 31+1 from rfl, envAttack, att31]
  exact envStep_true_eval _ _ (-2) (by norm_num [lit001_eq])
    (by norm_num [lit001_eq]) (by norm_num [lit001_eq, rndNE]) (by norm_num)

theorem att33 : envAttack 33 = 11072961/33554432 := by
  rw [show (33:ℕ) = 32+1 from rfl, envAttack, att32]
  exact envStep_true_eval _ _ (-2) (by norm_num [lit001_eq])
    (by norm_num [lit001_eq]) (by norm_num [lit001_eq, rndNE]) (by norm_num)

theorem att34 : envAttack 34 = 11408505/33554432 := by
  rw [show (34:ℕ) = 33+1 from rfl, envAttack, att33]
  exact envStep_true_eval _ _ (-2) (by norm_num [lit001_eq])
    (by norm_num [lit001_eq]) (by norm_num [lit001_eq, rndNE]) (by norm_num)

theorem att35 : envAttack 35 = 11744049/33554432 := by
  rw [show (35:ℕ) = 34+1 from rfl, envAttack, att34]
  exact envStep_true_eval _ _ (-2) (by norm_num [lit001_eq])
    (by norm_num [lit001_eq]) (by norm_num [lit001_eq, rndNE]) (by norm_num)

theorem att36 : envAttack 36 = 12079593/33554432 := by
  rw [show (36:ℕ) = 35+1 from rfl, envAttack, att35]
  exact envStep_true_eval _ _ (-2) (by norm_num [lit001_eq])
    (by norm_num [lit001_eq]) (by norm_num [lit001_eq, rndNE]) (by norm_num)

theorem att37 : envAttack 37 = 12415137/33554432 := by
  rw [show (37:ℕ) = 36+1 from rfl, envAttack, att36]
  exact envStep_true_eval _ _ (-2) (by norm_num [lit001_eq])
    (by norm_num [lit001_eq]) (by norm_num [lit001_eq, rndNE]) (by norm_num)

theorem att38 : envAttack 38 = 12750681/33554432 := by
  rw [show (38:ℕ) = 37+1 from rfl, envAttack, att37]
  exact envStep_true_eval _ _ (-2) (by norm_num [lit001_eq])
    (by norm_num [lit001_eq]) (by norm_num [lit001_eq, rndNE]) (by norm_num)

theorem att39 : envAttack 39 = 13086225/33554432 := by
  rw [show (39:ℕ) = 38+1 from rfl, envAttack, att38]
  exact envStep_true_eval _ _ (-2) (by norm_num [lit001_eq])
    (by norm_num [lit001_eq]) (by norm_num [lit001_eq, rndNE]) (by norm_num)

theorem att40 : envAttack 40 = 13421769/33554432 := by
  rw [show (40:ℕ) = 39+1 from rfl, envAttack, att39]
  exact envStep_true_eval _ _ (-2) (by norm_num [lit001_eq])
    (by norm_num [lit001_eq]) (by norm_num [lit001_eq, rndNE]) (by norm_num)

theorem att41 : envAttack 41 = 13757313/33554432 := by
  rw [show (41:ℕ) = 40+1 from rfl, envAttack, att40]
  exact envStep_true_eval _ _ (-2) (by norm_num [lit001_eq])
    (by norm_num [lit001_eq]) (by norm_num [lit001_eq, rndNE]) (by norm_num)

theorem att42 : envAttack 42 = 14092857/33554432 := by
  rw [show (42:ℕ) = 41+1 from rfl, envAttack, att41]
  exact envStep_true_eval _ _ (-2) (by norm_num [lit001_eq])
    (by norm_num [lit001_eq]) (by norm_num [lit001_eq, rndNE]) (by norm_num)

theorem att43 : envAttack 43 = 14428401/33554432 := by
  rw [show (43:ℕ) = 42+1 from rfl, envAttack, att42]
  exact envStep_true_eval _ _ (-2) (by norm_num [lit001_eq])
    (by norm_num [lit001_eq]) (by norm_num [lit001_eq, rndNE]) (by norm_num)

theorem att44 : envAttack 44 = 14763945/33554432 := by
  rw [show (44:ℕ) = 43+1 from rfl, envAttack, att43]
  exact envStep_true_eval _ _ (-2) (by norm_num [lit001_eq])
    (by norm_num [lit001_eq]) (by norm_num [lit001_eq, rndNE]) (by norm_num)

theorem att45 : envAttack 45 = 15099489/33554432 := by
  rw [show (45:ℕ) = 44+1 from rfl, envAttack, att44]
  exact envStep_true_eval _ _ (-2) (by norm_num [lit001_eq])
    (by norm_num [lit001_eq]) (by norm_num [lit001_eq, rndNE]) (by norm_num)

theorem att46 : envAttack 46 = 15435033/33554432 := by
  rw [show (46:ℕ) = 45+1 from rfl, envAttack, att45]
  exact envStep_true_eval _ _ (-2) (by norm_num [lit001_eq])
    (by norm_num [lit001_eq]) (by norm_num [lit001_eq, rndNE]) (by norm_num)

theorem att47 : envAttack 47 = 15770577/33554432 := by
  rw [show (47:ℕ) = 46+1 from rfl, envAttack, att46]
  exact envStep_true_eval _ _ (-2) (by norm_num [lit001_eq])
    (by norm_num [lit001_eq]) (by norm_num [lit001_eq, rndNE]) (by norm_num)

theorem att48 : envAttack 48 = 16106121/33554432 := by
  rw [show (48:ℕ) = 47+1 from rfl, envAttack, att47]
  exact envStep_true_eval _ _ (-2) (by norm_num [lit001_eq])
    (by norm_num [lit001_eq]) (by norm_num [lit001_eq, rndNE]) (by norm_num)

theorem att49 : envAttack 49 = 16441665/33554432 := by
  rw [show (49:ℕ) = 48+1 from rfl, envAttack, att48]
  exact envStep_true_eval _ _ (-2) (by norm_num [lit001_eq])
    (by norm_num [lit001_eq]) (by norm_num [lit001_eq, rndNE]) (by norm_num)

theorem att50 : envAttack 50 = 16777209/33554432 := by
  rw [show (50:ℕ) = 49+1 from rfl, envAttack, att49]
  exact envStep_true_eval _ _ (-2) (by norm_num [lit001_eq])
    (by norm_num [lit001_eq]) (by norm_num [lit001_eq, rndNE]) (by norm_num)

theorem att51 : envAttack 51 = 8556377/16777216 := by
  rw [show (51:ℕ) = 50+1 from rfl, envAttack, att50]
  exact envStep_true_eval _ _ (-1) (by norm_num [lit001_eq])
    (by norm_num [lit001_eq]) (by norm_num [lit001_eq, rndNE]) (by norm_num)

theorem att52 : envAttack 52 = 8724149/16777216 := by
  rw [show (52:ℕ) = 51+1 from rfl, envAttack, att51]
  exact envStep_true_eval _ _ (-1) (by norm_num [lit001_eq])
    (by norm_num [lit001_eq]) (by norm_num [lit001_eq, rndNE]) (by norm_num)

theorem att53 : envAttack 53 = 8891921/16777216 := by
  rw [show (53:ℕ) = 52+1 from rfl, envAttack, att52]
  exact envStep_true_eval _ _ (-1) (by norm_num [lit001_eq])
    (by norm_num [lit001_eq]) (by norm_num [lit001_eq, rndNE]) (by norm_num)

theorem att54 : envAttack 54 = 9059693/16777216 := by
  rw [show (54:ℕ) = 53+1 from rfl, envAttack, att53]
  exact envStep_true_eval _ _ (-1) (by norm_num [lit001_eq])
    (by norm_num [lit001_eq]) (by norm_num [lit001_eq, rndNE]) (by norm_num)

theorem att55 : envAttack 55 = 9227465/16777216 := by
  rw [show (55:ℕ) = 54+1 from rfl, envAttack, att54]
  exact envStep_true_eval _ _ (-1) (by norm_num [lit001_eq])
    (by norm_num [lit001_eq]) (by norm_num [lit001_eq, rndNE]) (by norm_num)

theorem att56 : envAttack 56 = 9395237/16777216 := by
  rw [show (56:ℕ) = 55+1 from rfl, envAttack, att55]
  exact envStep_true_eval _ _ (-1) (by norm_num [lit001_eq])
    (by norm_num [lit001_eq]) (by norm_num [lit001_eq, rndNE]) (by norm_num)

theorem att57 : envAttack 57 = 9563009/16777216 := by
  rw [show (57:ℕ) = 56+1 from rfl, envAttack, att56]
  exact envStep_true_eval _ _ (-1) (by norm_num [lit001_eq])
    (by norm_num [lit001_eq]) (by norm_num [lit001_eq, rndNE]) (by norm_num)

theorem att58 : envAttack 58 = 9730781/16777216 := by
  rw [show (58:ℕ) = 57+1 from rfl, envAttack, att57]
  exact envStep_true_eval _ _ (-1) (by norm_num [lit001_eq])
    (by norm_num [lit001_eq]) (by norm_num [lit001_eq, rndNE]) (by norm_num)

theorem att59 : envAttack 59 = 9898553/16777216 := by
  rw [show (59:ℕ) = 58+1 from rfl, envAttack, att58]
  exact envStep_true_eval _ _ (-1) (by norm_num [lit001_eq])
    (by norm_num [lit001_eq]) (by norm_num [lit001_eq, rndNE]) (by norm_num)

theorem att60 : envAttack 60 = 10066325/16777216 := by
  rw [show (60:ℕ) = 59+1 from rfl, envAttack, att59]
  exact envStep_true_eval _ _ (-1) (by norm_num [lit001_eq])
    (by norm_num [lit001_eq]) (by norm_num [lit001_eq, rndNE]) (by norm_num)

theorem att61 : envAttack 61 = 10234097/16777216 := by
  rw [show (61:ℕ) = 60+1 from rfl, envAttack, att60]
  exact envStep_true_eval _ _ (-1) (by norm_num [lit001_eq])
    (by norm_num [lit001_eq]) (by norm_num [lit001_eq, rndNE]) (by norm_num)

theorem att62 : envAttack 62 = 10401869/16777216 := by
  rw [show (62:ℕ) = 61+1 from rfl, envAttack, att61]
  exact envStep_true_eval _ _ (-1) (by norm_num [lit001_eq])
    (by norm_num [lit001_eq]) (by norm_num [lit001_eq, rndNE]) (by norm_num)

theorem att63 : envAttack 63 = 10569641/16777216 := by
  rw [show (63:ℕ) = 62+1 from rfl, envAttack, att62]
  exact envStep_true_eval _ _ (-1) (by norm_num [lit001_eq])
    (by norm_num [lit001_eq]) (by norm_num [lit001_eq, rndNE]) (by norm_num)

theorem att64 : envAttack 64 = 10737413/16777216 := by
  rw [show (64:ℕ) = 63+1 from rfl, envAttack, att63]
  exact envStep_true_eval _ _ (-1) (by norm_num [lit001_eq])
    (by norm_num [lit001_eq]) (by norm_num [lit001_eq, rndNE]) (by norm_num)

theorem att65 : envAttack 65 = 10905185/16777216 := by
  rw [show (65:ℕ) = 64+1 from rfl, envAttack, att64]
  exact envStep_true_eval _ _ (-1) (by norm_num [lit001_eq])
    (by norm_num [lit001_eq]) (by norm_num [lit001_eq, rndNE]) (by norm_num)

theorem att66 : envAttack 66 = 11072957/16777216 := by
  rw [show (66:ℕ) = 65+1 from rfl, envAttack, att65]
  exact envStep_true_eval _ _ (-1) (by norm_num [lit001_eq])
    (by norm_num [lit001_eq]) (by norm_num [lit001_eq, rndNE]) (by norm_num)

theorem att67 : envAttack 67 = 11240729/16777216 := by
  rw [show (67:ℕ) = 66+1 from rfl, envAttack, att66]
  exact envStep_true_eval _ _ (-1) (by norm_num [lit001_eq])
    (by norm_num [lit001_eq]) (by norm_num [lit001_eq, rndNE]) (by norm_num)

theorem att68 : envAttack 68 = 11408501/16777216 := by
  rw [show (68:ℕ) = 67+1 from rfl, envAttack, att67]
  exact envStep_true_eval _ _ (-1) (by norm_num [lit001_eq])
    (by norm_num [lit001_eq]) (by norm_num [lit001_eq, rndNE]) (by norm_num)

theorem att69 : envAttack 69 = 11576273/16777216 := by
  rw [show (69:ℕ) = 68+1 from rfl, envAttack, att68]
  exact envStep_true_eval _ _ (-1) (by norm_num [lit001_eq])
    (by norm_num [lit001_eq]) (by norm_num [lit001_eq, rndNE]) (by norm_num)

theorem att70 : envAttack 70 = 11744045/16777216 := by
  rw [show (70:ℕ) = 69+1 from rfl, envAttack, att69]
  exact envStep_true_eval _ _ (-1) (by norm_num [lit001_eq])
    (by norm_num [lit001_eq]) (by norm_num [lit001_eq, rndNE]) (by norm_num)

theorem att71 : envAttack 71 = 11911817/16777216 := by
  rw [show (71:ℕ) = 70+1 from rfl, envAttack, att70]
  exact envStep_true_eval _ _ (-1) (by norm_num [lit001_eq])
    (by norm_num [lit001_eq]) (by norm_num [lit001_eq, rndNE]) (by norm_num)

theorem att72 : envAttack 72 = 12079589/16777216 := by
  rw [show (72:ℕ) = 71+1 from rfl, envAttack, att71]
  exact envStep_true_eval _ _ (-1) (by norm_num [lit001_eq])
    (by norm_num [lit001_eq]) (by norm_num [lit001_eq, rndNE]) (by norm_num)

theorem att73 : envAttack 73 = 12247361/16777216 := by
  rw [show (73:ℕ) = 72+1 from rfl, envAttack, att72]
  exact envStep_true_eval _ _ (-1) (by norm_num [lit001_eq])
    (by norm_num [lit001_eq]) (by norm_num [lit001_eq, rndNE]) (by norm_num)

theorem att74 : envAttack 74 = 12415133/16777216 := by
  rw [show (74:ℕ) = 73+1 from rfl, envAttack, att73]
  exact envStep_true_eval _ _ (-1) (by norm_num [lit001_eq])
    (by norm_num [lit001_eq]) (by norm_num [lit001_eq, rndNE]) (by norm_num)

theorem att75 : envAttack 75 = 12582905/16777216 := by
  rw [show (75:ℕ) = 74+1 from rfl, envAttack, att74]
  exact envStep_true_eval _ _ (-1) (by norm_num [lit001_eq])
    (by norm_num [lit001_eq]) (by norm_num [lit001_eq, rndNE]) (by norm_num)

theorem att76 : envAttack 76 = 12750677/16777216 := by
  rw [show (76:ℕ) = 75+1 from rfl, envAttack, att75]
  exact envStep_true_eval _ _ (-1) (by norm_num [lit001_eq])
    (by norm_num [lit001_eq]) (by norm_num [lit001_eq, rndNE]) (by norm_num)

theorem att77 : envAttack 77 = 12918449/16777216 := by
  rw [show (77:ℕ) = 76+1 from rfl, envAttack, att76]
  exact envStep_true_eval _ _ (-1) (by norm_num [lit001_eq])
    (by norm_num [lit001_eq]) (by norm_num [lit001_eq, rndNE]) (by norm_num)

theorem att78 : envAttack 78 = 13086221/16777216 := by
  rw [show (78:ℕ) = 77+1 from rfl, envAttack, att77]
  exact envStep_true_eval _ _ (-1) (by norm_num [lit001_eq])
    (by norm_num [lit001_eq]) (by norm_num [lit001_eq, rndNE]) (by norm_num)

theorem att79 : envAttack 79 = 13253993/16777216 := by
  rw [show (79:ℕ) = 78+1 from rfl, envAttack, att78]
  exact envStep_true_eval _ _ (-1) (by norm_num [lit001_eq])
    (by norm_num [lit001_eq]) (by norm_num [lit001_eq, rndNE]) (by norm_num)

theorem att80 : envAttack 80 = 13421765/16777216 := by
  rw [show (80:ℕ) = 79+1 from rfl, envAttack, att79]
  exact envStep_true_eval _ _ (-1) (by norm_num [lit001_eq])
    (by norm_num [lit001_eq]) (by norm_num [lit001_eq, rndNE]) (by norm_num)

theorem att81 : envAttack 81 = 13589537/16777216 := by
  rw [show (81:ℕ) = 80+1 from rfl, envAttack, att80]
  exact envStep_true_eval _ _ (-1) (by norm_num [lit001_eq])
    (by norm_num [lit001_eq]) (by norm_num [lit001_eq, rndNE]) (by norm_num)

theorem att82 : envAttack 82 = 13757309/16777216 := by
  rw [show (82:ℕ) = 81+1 from rfl, envAttack, att81]
  exact envStep_true_eval _ _ (-1) (by norm_num [lit001_eq])
    (by norm_num [lit001_eq]) (by norm_num [lit001_eq, rndNE]) (by norm_num)

theorem att83 : envAttack 83 = 13925081/16777216 := by
  rw [show (83:ℕ) = 82+1 from rfl, envAttack, att82]
  exact envStep_true_eval _ _ (-1) (by norm_num [lit001_eq])
    (by norm_num [lit001_eq]) (by norm_num [lit001_eq, rndNE]) (by norm_num)

theorem att84 : envAttack 84 = 14092853/16777216 := by
  rw [show (84:ℕ) = 83+1 from rfl, envAttack, att83]
  exact envStep_true_eval _ _ (-1) (by norm_num [lit001_eq])
    (by norm_num [lit001_eq]) (by norm_num [lit001_eq, rndNE]) (by norm_num)

theorem att85 : envAttack 85 = 14260625/16777216 := by
  rw [show (85:ℕ) = 84+1 from rfl, envAttack, att84]
  exact envStep_true_eval _ _ (-1) (by norm_num [lit001_eq])
    (by norm_num [lit001_eq]) (by norm_num [lit001_eq, rndNE]) (by norm_num)

theorem att86 : envAttack 86 = 14428397/16777216 := by
  rw [show (86:ℕ) = 85+1 from rfl, envAttack, att85]
  exact envStep_true_eval _ _ (-1) (by norm_num [lit001_eq])
    (by norm_num [lit001_eq]) (by norm_num [lit001_eq, rndNE]) (by norm_num)

theorem att87 : envAttack 87 = 14596169/16777216 := by
  rw [show (87:ℕ) = 86+1 from rfl, envAttack, att86]
  exact envStep_true_eval _ _ (-1) (by norm_num [lit001_eq])
    (by norm_num [lit001_eq]) (by norm_num [lit001_eq, rndNE]) (by norm_num)

theorem att88 : envAttack 88 = 14763941/16777216 := by
  rw [show (88:ℕ) = 87+1 from rfl, envAttack, att87]
  exact envStep_true_eval _ _ (-1) (by norm_num [lit001_eq])
    (by norm_num [lit001_eq]) (by norm_num [lit001_eq, rndNE]) (by norm_num)

theorem att89 : envAttack 89 = 14931713/16777216 := by
  rw [show (89:ℕ) = 88+1 from rfl, envAttack, att88]
  exact envStep_true_eval _ _ (-1) (by norm_num [lit001_eq])
    (by norm_num [lit001_eq]) (by norm_num [lit001_eq, rndNE]) (by norm_num)

theorem att90 : envAttack 90 = 15099485/16777216 := by
  rw [show (90:ℕ) = 89+1 from rfl, envAttack, att89]
  exact envStep_true_eval _ _ (-1) (by norm_num [lit001_eq])
    (by norm_num [lit001_eq]) (by norm_num [lit001_eq, rndNE]) (by norm_num)

theorem att91 : envAttack 91 = 15267257/16777216 := by
  rw [show (91:ℕ) = 90+1 from rfl, envAttack, att90]
  exact envStep_true_eval _ _ (-1) (by norm_num [lit001_eq])
    (by norm_num [lit001_eq]) (by norm_num [lit001_eq, rndNE]) (by norm_num)

theorem att92 : envAttack 92 = 15435029/16777216 := by
  rw [show (92:ℕ) = 91+1 from rfl, envAttack, att91]
  exact envStep_true_eval _ _ (-1) (by norm_num [lit001_eq])
    (by norm_num [lit001_eq]) (by norm_num [lit001_eq, rndNE]) (by norm_num)

theorem att93 : envAttack 93 = 15602801/16777216 := by
  rw [show (93:ℕ) = 92+1 from rfl, envAttack, att92]
  exact envStep_true_eval _ _ (-1) (by norm_num [lit001_eq])
    (by norm_num [lit001_eq]) (by norm_num [lit001_eq, rndNE]) (by norm_num)

theorem att94 : envAttack 94 = 15770573/16777216 := by
  rw [show (94:ℕ) = 93+1 from rfl, envAttack, att93]
  exact envStep_true_eval _ _ (-1) (by norm_num [lit001_eq])
    (by norm_num [lit001_eq]) (by norm_num [lit001_eq, rndNE]) (by norm_num)

theorem att95 : envAttack 95 = 15938345/16777216 := by
  rw [show (95:ℕ) = 94+1 from rfl, envAttack, att94]
  exact envStep_true_eval _ _ (-1) (by norm_num [lit001_eq])
    (by norm_num [lit001_eq]) (by norm_num [lit001_eq, rndNE]) (by norm_num)

theorem att96 : envAttack 96 = 16106117/16777216 := by
  rw [show (96:ℕ) = 95+1 from rfl, envAttack, att95]
  exact envStep_true_eval _ _ (-1) (by norm_num [lit001_eq])
    (by norm_num [lit001_eq]) (by norm_num [lit001_eq, rndNE]) (by norm_num)

theorem att97 : envAttack 97 = 16273889/16777216 := by
  rw [show (97:ℕ) = 96+1 from rfl, envAttack, att96]
  exact envStep_true_eval _ _ (-1) (by norm_num [lit001_eq])
    (by norm_num [lit001_eq]) (by norm_num [lit001_eq, rndNE]) (by norm_num)

theorem att98 : envAttack 98 = 16441661/16777216 := by
  rw [show (98:ℕ) = 97+1 from rfl, envAttack, att97]
  exact envStep_true_eval _ _ (-1) (by norm_num [lit001_eq])
    (by norm_num [lit001_eq]) (by norm_num [lit001_eq, rndNE]) (by norm_num)

theorem att99 : envAttack 99 = 16609433/16777216 := by
  rw [show (99:ℕ) = 98+1 from rfl, envAttack, att98]
  exact envStep_true_eval _ _ (-1) (by norm_num [lit001_eq])
    (by norm_num [lit001_eq]) (by norm_num [lit001_eq, rndNE]) (by norm_num)

theorem att100 : envAttack 100 = 16777205/16777216 := by
  rw [show (100:ℕ) = 99+1 from rfl, envAttack, att99]
  exact envStep_true_eval _ _ (-1) (by norm_num [lit001_eq])
    (by norm_num [lit001_eq]) (by norm_num [lit001_eq, rndNE]) (by norm_num)

theorem att101 : envAttack 101 = 1 := by
  rw [show (101:ℕ) = 100+1 from rfl, envAttack, att100]
  exact envStep_true_sat _ (by norm_num [lit001_eq])

theorem rel1 : envRelease 1 = 2055209/2097152 := by
  rw [show (1:ℕ) = 0+1 from rfl, envRelease, envRelease]
  exact envStep_false_eval _ _ (-1) (by norm_num [lit002_eq])
    (by norm_num [lit002_eq]) (by norm_num [lit002_eq, rndNE]) (by norm_num)

theorem rel2 : envRelease 2 = 1006633/1048576 := by
  rw [show (2:ℕ) = 1+1 from rfl, envRelease, rel1]
  exact envStep_false_eval _ _ (-1) (by norm_num [lit002_eq])
    (by norm_num [lit002_eq]) (by norm_num [lit002_eq, rndNE]) (by norm_num)

theorem rel3 : envRelease 3 = 1971323/2097152 := by
  rw [show (3:ℕ) = 2+1 from rfl, envRelease, rel2]
  exact envStep_false_eval _ _ (-1) (by norm_num [lit002_eq])
    (by norm_num [lit002_eq]) (by norm_num [lit002_eq, rndNE]) (by norm_num)

theorem rel4 : envRelease 4 = 482345/524288 := by
  rw [show (4:ℕ) = 3+1 from rfl, envRelease, rel3]
  exact envStep_false_eval _ _ (-1) (by norm_num [lit002_eq])
    (by norm_num [lit002_eq]) (by norm_num [lit002_eq, rndNE]) (by norm_num)

theorem rel5 : envRelease 5 = 1887437/2097152 := by
  rw [show (5:ℕ) = 4+1 from rfl, envRelease, rel4]
  exact envStep_false_eval _ _ (-1) (by norm_num [lit002_eq])
    (by norm_num [lit002_eq]) (by norm_num [lit002_eq, rndNE]) (by norm_num)

theorem rel6 : envRelease 6 = 922747/1048576 := by
  rw [show (6:ℕ) = 5+1 from rfl, envRelease, rel5]
  exact envStep_false_eval _ _ (-1) (by norm_num [lit002_eq])
    (by norm_num [lit002_eq]) (by norm_num [lit002_eq, rndNE]) (by norm_num)

theorem rel7 : envRelease 7 = 1803551/2097152 := by
  rw [show (7:ℕ) = 6+1 from rfl, envRelease, rel6]
  exact envStep_false_eval _ _ (-1) (by norm_num [lit002_eq])
    (by norm_num [lit002_eq]) (by norm_num [lit002_eq, rndNE]) (by norm_num)

theorem rel8 : envRelease 8 = 220201/262144 := by
  rw [show (8:ℕ) = 7+1 from rfl, envRelease, rel7]
  exact envStep_false_eval _ _ (-1) (by norm_num [lit002_eq])
    (by norm_num [lit002_eq]) (by norm_num [lit002_eq, rndNE]) (by norm_num)

theorem rel9 : envRelease 9 = 1719665/2097152 := by
  rw [show (9:ℕ) = 8+1 from rfl, envRelease, rel8]
  exact envStep_false_eval _ _ (-1) (by norm_num [lit002_eq])
    (by norm_num [lit002_eq]) (by norm_num [lit002_eq, rndNE]) (by norm_num)

theorem rel10 : envRelease 10 = 838861/1048576 := by
  rw [show (10:ℕ) = 9+1 from rfl, envRelease, rel9]
  exact envStep_false_eval _ _ (-1) (by norm_num [lit002_eq])
    (by norm_num [lit002_eq]) (by norm_num [lit002_eq, rndNE]) (by norm_num)

theorem rel11 : envRelease 11 = 1635779/2097152 := by
  rw [show (11:ℕ) = 10+1 from rfl, envRelease, rel10]
  exact envStep_false_eval _ _ (-1) (by norm_num [lit002_eq])
    (by norm_num [lit002_eq]) (by norm_num [lit002_eq, rndNE]) (by norm_num)

theorem rel12 : envRelease 12 = 398459/524288 := by
  rw [show (12:ℕ) = 11+1 from rfl, envRelease, rel11]
  exact envStep_false_eval _ _ (-1) (by norm_num [lit002_eq])
    (by norm_num [lit002_eq]) (by norm_num [lit002_eq, rndNE]) (by norm_num)

theorem rel13 : envRelease 13 = 1551893/2097152 := by
  rw [show (13:ℕ) = 12+1 from rfl, envRelease, rel12]
  exact envStep_false_eval _ _ (-1) (by norm_num [lit002_eq])
    (by norm_num [lit002_eq]) (by norm_num [lit002_eq, rndNE]) (by norm_num)

theorem rel14 : envRelease 14 = 754975/1048576 := by
  rw [show (14:ℕ) = 13+1 from rfl, envRelease, rel13]
  exact envStep_false_eval _ _ (-1) (by norm_num [lit002_eq])
    (by norm_num [lit002_eq]) (by norm_num [lit002_eq, rndNE]) (by norm_num)

theorem rel15 : envRelease 15 = 1468007/2097152 := by
  rw [show (15:ℕ) = 14+1 from rfl, envRelease, rel14]
  exact envStep_false_eval _ _ (-1) (by norm_num [lit002_eq])
    (by norm_num [lit002_eq]) (by norm_num [lit002_eq, rndNE]) (by norm_num)

theorem rel16 : envRelease 16 = 89129/131072 := by
  rw [show (16:ℕ) = 15+1 from rfl, envRelease, rel15]
  exact envStep_false_eval _ _ (-1) (by norm_num [lit002_eq])
    (by norm_num [lit002_eq]) (by norm_num [lit002_eq, rndNE]) (by norm_num)

theorem rel17 : envRelease 17 = 1384121/2097152 := by
  rw [show (17:ℕ) = 16+1 from rfl, envRelease, rel16]
  exact envStep_false_eval _ _ (-1) (by norm_num [lit002_eq])
    (by norm_num [lit002_eq]) (by norm_num [lit002_eq, rndNE]) (by norm_num)

theorem rel18 : envRelease 18 = 671089/1048576 := by
  rw [show (18:ℕ) = 17+1 from rfl, envRelease, rel17]
  exact envStep_false_eval _ _ (-1) (by norm_num [lit002_eq])
    (by norm_num [lit002_eq]) (by norm_num [lit002_eq, rndNE]) (by norm_num)

theorem rel19 : envRelease 19 = 1300235/2097152 := by
  rw [show (19:ℕ) = 18+1 from rfl, envRelease, rel18]
  exact envStep_false_eval _ _ (-1) (by norm_num [lit002_eq])
    (by norm_num [lit002_eq]) (by norm_num [lit002_eq, rndNE]) (by norm_num)

theorem rel20 : envRelease 20 = 314573/524288 := by
  rw [show (20:ℕ) = 19+1 from rfl, envRelease, rel19]
  exact envStep_false_eval _ _ (-1) (by norm_num [lit002_eq])
    (by norm_num [lit002_eq]) (by norm_num [lit002_eq, rndNE]) (by norm_num)

theorem rel21 : envRelease 21 = 1216349/2097152 := by
  rw [show (21:ℕ) = 20+1 from rfl, envRelease, rel20]
  exact envStep_false_eval _ _ (-1) (by norm_num [lit002_eq])
    (by norm_num [lit002_eq]) (by norm_num [lit002_eq, rndNE]) (by norm_num)

theorem rel22 : envRelease 22 = 587203/1048576 := by
  rw [show (22:ℕ) = 21+1 from rfl, envRelease, rel21]
  exact envStep_false_eval _ _ (-1) (by norm_num [lit002_eq])
    (by norm_num [lit002_eq]) (by norm_num [lit002_eq, rndNE]) (by norm_num)

theorem rel23 : envRelease 23 = 1132463/2097152 := by
  rw [show (23:ℕ) = 22+1 from rfl, envRelease, rel22]
  exact envStep_false_eval _ _ (-1) (by norm_num [lit002_eq])
    (by norm_num [lit002_eq]) (by norm_num [lit002_eq, rndNE]) (by norm_num)

theorem rel24 : envRelease 24 = 136315/262144 := by
  rw [show (24:ℕ) = 23+1 from rfl, envRelease, rel23]
  exact envStep_false_eval _ _ (-1) (by norm_num [lit002_eq])
    (by norm_num [lit002_eq]) (by norm_num [lit002_eq, rndNE]) (by norm_num)

theorem rel25 : envRelease 25 = 1048577/2097152 := by
  rw [show (25:ℕ) = 24+1 from rfl, envRelease, rel24]
  exact envStep_false_eval _ _ (-1) (by norm_num [lit002_eq])
    (by norm_num [lit002_eq]) (by norm_num [lit002_eq, rndNE]) (by norm_num)

theorem rel26 : envRelease 26 = 16106143/33554432 := by
  rw [show (26:ℕ) = 25+1 from rfl, envRelease, rel25]
  exact envStep_false_eval _ _ (-2) (by norm_num [lit002_eq])
    (by norm_num [lit002_eq]) (by norm_num [lit002_eq, rndNE]) (by norm_num)

theorem rel27 : envRelease 27 = 7717527/16777216 := by
  rw [show (27:ℕ) = 26+1 from rfl, envRelease, rel26]
  exact envStep_false_eval _ _ (-2) (by norm_num [lit002_eq])
    (by norm_num [lit002_eq]) (by norm_num [lit002_eq, rndNE]) (by norm_num)

theorem rel28 : envRelease 28 = 14763965/33554432 := by
  rw [show (28:ℕ) = 27+1 from rfl, envRelease, rel27]
  exact envStep_false_eval _ _ (-2) (by norm_num [lit002_eq])
    (by norm_num [lit002_eq]) (by norm_num [lit002_eq, rndNE]) (by norm_num)

theorem rel29 : envRelease 29 = 3523219/8388608 := by
  rw [show (29:ℕ) = 28+1 from rfl, envRelease, rel28]
  exact envStep_false_eval _ _ (-2) (by norm_num [lit002_eq])
    (by norm_num [lit002_eq]) (by norm_num [lit002_eq, rndNE]) (by norm_num)

theorem rel30 : envRelease 30 = 13421787/33554432 := by
  rw [show (30:ℕ) = 29+1 from rfl, envRelease, rel29]
  exact envStep_false_eval _ _ (-2) (by norm_num [lit002_eq])
    (by norm_num [lit002_eq]) (by norm_num [lit002_eq, rndNE]) (by norm_num)

theorem rel31 : envRelease 31 = 6375349/16777216 := by
  rw [show (31:ℕ) = 30+1 from rfl, envRelease, rel30]
  exact envStep_false_eval _ _ (-2) (by norm_num [lit002_eq])
    (by norm_num [lit002_eq]) (by norm_num [lit002_eq, rndNE]) (by norm_num)

theorem rel32 : envRelease 32 = 12079609/33554432 := by
  rw [show (32:ℕ) = 31+1 from rfl, envRelease, rel31]
  exact envStep_false_eval _ _ (-2) (by norm_num [lit002_eq])
    (by norm_num [lit002_eq]) (by norm_num [lit002_eq, rndNE]) (by norm_num)

theorem rel33 : envRelease 33 = 1426065/4194304 := by
  rw [show (33:ℕ) = 32+1 from rfl, envRelease, rel32]
  exact envStep_false_eval _ _ (-2) (by norm_num [lit002_eq])
    (by norm_num [lit002_eq]) (by norm_num [lit002_eq, rndNE]) (by norm_num)

theorem rel34 : envRelease 34 = 10737431/33554432 := by
  rw [show (34:ℕ) = 33+1 from rfl, envRelease, rel33]
  exact envStep_false_eval _ _ (-2) (by norm_num [lit002_eq])
    (by norm_num [lit002_eq]) (by norm_num [lit002_eq, rndNE]) (by norm_num)

theorem rel35 : envRelease 35 = 5033171/16777216 := by
  rw [show (35:ℕ) = 34+1 from rfl, envRelease, rel34]
  exact envStep_false_eval _ _ (-2) (by norm_num [lit002_eq])
    (by norm_num [lit002_eq]) (by norm_num [lit002_eq, rndNE]) (by norm_num)

theorem rel36 : envRelease 36 = 9395253/33554432 := by
  rw [show (36:ℕ) = 35+1 from rfl, envRelease, rel35]
  exact envStep_false_eval _ _ (-2) (by norm_num [lit002_eq])
    (by norm_num [lit002_eq]) (by norm_num [lit002_eq, rndNE]) (by norm_num)

theorem rel37 : envRelease 37 = 2181041/8388608 := by
  rw [show (37:ℕ) = 36+1 from rfl, envRelease, rel36]
  exact envStep_false_eval _ _ (-2) (by norm_num [lit002_eq])
    (by norm_num [lit002_eq]) (by norm_num [lit002_eq, rndNE]) (by norm_num)

theorem rel38 : envRelease 38 = 16106151/67108864 := by
  rw [show (38:ℕ) = 37+1 from rfl, envRelease, rel37]
  exact envStep_false_eval _ _ (-3) (by norm_num [lit002_eq])
    (by norm_num [lit002_eq]) (by norm_num [lit002_eq, rndNE]) (by norm_num)

theorem rel39 : envRelease 39 = 7381987/33554432 := by
  rw [show (39:ℕ) = 38+1 from rfl, envRelease, rel38]
  exact envStep_false_eval _ _ (-3) (by norm_num [lit002_eq])
    (by norm_num [lit002_eq]) (by norm_num [lit002_eq, rndNE]) (by norm_num)

theorem rel40 : envRelease 40 = 13421797/67108864 := by
  rw [show (40:ℕ) = 39+1 from rfl, envRelease, rel39]
  exact envStep_false_eval _ _ (-3) (by norm_num [lit002_eq])
    (by norm_num [lit002_eq]) (by norm_num [lit002_eq, rndNE]) (by norm_num)

theorem rel41 : envRelease 41 = 3019905/16777216 := by
  rw [show (41:ℕ) = 40+1 from rfl, envRelease, rel40]
  exact envStep_false_eval _ _ (-3) (by norm_num [lit002_eq])
    (by norm_num [lit002_eq]) (by norm_num [lit002_eq, rndNE]) (by norm_num)

theorem rel42 : envRelease 42 = 10737443/67108864 := by
  rw [show (42:ℕ) = 41+1 from rfl, envRelease, rel41]
  exact envStep_false_eval _ _ (-3) (by norm_num [lit002_eq])
    (by norm_num [lit002_eq]) (by norm_num [lit002_eq, rndNE]) (by norm_num)

theorem rel43 : envRelease 43 = 4697633/33554432 := by
  rw [show (43:ℕ) = 42+1 from rfl, envRelease, rel42]
  exact envStep_false_eval _ _ (-3) (by norm_num [lit002_eq])
    (by norm_num [lit002_eq]) (by norm_num [lit002_eq, rndNE]) (by norm_num)

theorem rel44 : envRelease 44 = 8053089/67108864 := by
  rw [show (44:ℕ) = 43+1 from rfl, envRelease, rel43]
  exact envStep_false_eval _ _ (-4) (by norm_num [lit002_eq])
    (by norm_num [lit002_eq]) (by norm_num [lit002_eq, rndNE]) (by norm_num)

theorem rel45 : envRelease 45 = 52429/524288 := by
  rw [show (45:ℕ) = 44+1 from rfl, envRelease, rel44]
  exact envStep_false_eval _ _ (-4) (by norm_num [lit002_eq])
    (by norm_num [lit002_eq]) (by norm_num [lit002_eq, rndNE]) (by norm_num)

theorem rel46 : envRelease 46 = 5368735/67108864 := by
  rw [show (46:ℕ) = 45+1 from rfl, envRelease, rel45]
  exact envStep_false_eval _ _ (-4) (by norm_num [lit002_eq])
    (by norm_num [lit002_eq]) (by norm_num [lit002_eq, rndNE]) (by norm_num)

theorem rel47 : envRelease 47 = 16106231/268435456 := by
  rw [show (47:ℕ) = 46+1 from rfl, envRelease, rel46]
  exact envStep_false_eval _ _ (-5) (by norm_num [lit002_eq])
    (by norm_num [lit002_eq]) (by norm_num [lit002_eq, rndNE]) (by norm_num)

theorem rel48 : envRelease 48 = 5368761/134217728 := by
  rw [show (48:ℕ) = 47+1 from rfl, envRelease, rel47]
  exact envStep_false_eval _ _ (-5) (by norm_num [lit002_eq])
    (by norm_num [lit002_eq]) (by norm_num [lit002_eq, rndNE]) (by norm_num)

theorem rel49 : envRelease 49 = 5368813/268435456 := by
  rw [show (49:ℕ) = 48+1 from rfl, envRelease, rel48]
  exact envStep_false_eval _ _ (-6) (by norm_num [lit002_eq])
    (by norm_num [lit002_eq]) (by norm_num [lit002_eq, rndNE]) (by norm_num)

theorem rel50 : envRelease 50 = 13/33554432 := by
  rw [show (50:ℕ) = 49+1 from rfl, envRelease, rel49]
  exact envStep_false_eval _ _ (-22) (by norm_num [lit002_eq])
    (by norm_num [lit002_eq]) (by norm_num [lit002_eq, rndNE]) (by norm_num)

theorem rel51 : envRelease 51 = 0 := by
  rw [show (51:ℕ) = 50+1 from rfl, envRelease, rel50]
  exact envStep_false_bot _ (by norm_num [lit002_eq])

theorem envAttack_eventually_one : ∀ n : ℕ, 101 ≤ n → envAttack n = 1 := by
  intro n hn
  induction n with
  | zero => omega
  | succ m ih =>
    rcases Nat.lt_or_ge m 101 with h | h
    · have hm : m = 100 := by omega
      subst hm
      exact att101
    · rw [envAttack, ih h]
      exact envStep_true_sat 1 (by norm_num [lit001_eq])

theorem envRelease_eventually_zero : ∀ n : ℕ, 51 ≤ n → envRelease n = 0 := by
  intro n hn
  induction n with
  | zero => omega
  | succ m ih =>
    rcases Nat.lt_or_ge m 51 with h | h
    · have hm : m = 50 := by omega
      subst hm
      exact rel51
    · rw [envRelease, ih h]
      exact envStep_false_bot 0 (by norm_num [lit002_eq])

/-- C8, counterexample.  Under exact `float` arithmetic the claim fails at
its stated thresholds: after exactly 100 consecutive note-on updates from
`0` the envelope is `16777205/16777216`, one ulp short of `1.0` (it first
reaches `1.0` at update 101), and after exactly 50 consecutive note-off
updates from `1` the envelope is `13/33554432`, not yet `0.0` (it first
reaches `0.0` at update 51). -/
theorem c8_counterexample : envAttack 100 ≠ 1 ∧ envRelease 50 ≠ 0 := by
  constructor
  · rw [att100]; norm_num
  · rw [rel50]; norm_num

/-- C8, amended.  The envelope stays within `[0,1]` for every number and
order of per-sample updates; starting from envelope `0`, after at least
101 consecutive updates with noteOn true the envelope equals exactly
`1.0`; starting from envelope `1`, after at least 51 consecutive updates
with noteOn false the envelope equals exactly `0.0`, under exact `float`
(binary32) arithmetic with the literals `0.01f` and `0.02f`. -/
theorem c8_theorem :
    (∀ (bs : List Bool) (e : ℚ), 0 ≤ e → e ≤ 1 →
      0 ≤ envRun bs e ∧ envRun bs e ≤ 1) ∧
    (∀ n : ℕ, 101 ≤ n → envAttack n = 1) ∧
    (∀ n : ℕ, 51 ≤ n → envRelease n = 0) :=
  ⟨envRun_mem, envAttack_eventually_one, envRelease_eventually_zero⟩

/-- C8, witness: the amended claim applied at concrete inputs. -/
theorem c8_witness :
    ((0:ℚ) ≤ 0 ∧ (0:ℚ) ≤ 1 ∧ 0 ≤ envRun [true, false, true] 0 ∧
      envRun [true, false, true] 0 ≤ 1) ∧
    (101 ≤ 101 ∧ envAttack 101 = 1) ∧ (51 ≤ 51 ∧ envRelease 51 = 0) :=
  ⟨⟨le_rfl, by norm_num,
    (c8_theorem.1 [true, false, true] 0 le_rfl (by norm_num)).1,
    (c8_theorem.1 [true, false, true] 0 le_rfl (by norm_num)).2⟩,
   ⟨le_rfl, c8_theorem.2.1 101 le_rfl⟩, ⟨le_rfl, c8_theorem.2.2 51 le_rfl⟩⟩

/-! ### More rounding evaluation lemmas (exactness of representables) -/

theorem rndNE_intCast (m : ℤ) : rndNE (m : ℚ) = m := by
  unfold rndNE
  rw [Int.floor_intCast]
  simp

/-- A binary32-representable value (24-bit significand) is a fixed point
of the rounding. -/
theorem round32_fix (m k : ℤ) (h1 : (2:ℤ)^23 ≤ m) (h2 : m < 2^24) :
    round32 ((m:ℚ) * 2 ^ k) = (m:ℚ) * 2 ^ k := by
  have hm0 : (0:ℚ) < (m:ℚ) := by
    have : (0:ℤ) < m := lt_of_lt_of_le (by norm_num) h1
    exact_mod_cast this
  have hk0 : (0:ℚ) < (2:ℚ) ^ k := by positivity
  have hx0 : (0:ℚ) < (m:ℚ) * 2 ^ k := by positivity
  have hmq1 : (2:ℚ) ^ (23:ℕ) ≤ (m:ℚ) := by exact_mod_cast h1
  have hmq2 : (m:ℚ) < 2 ^ (24:ℕ) := by exact_mod_cast h2
  have hlo : (2:ℚ) ^ (k + 23) ≤ (m:ℚ) * 2 ^ k := by
    calc (2:ℚ) ^ (k + 23) = 2 ^ (23:ℕ) * 2 ^ k := by
          rw [← zpow_natCast (2:ℚ) 23, ← zpow_add₀ (by norm_num : (2:ℚ) ≠ 0)]
          congr 1; omega
    _ ≤ (m:ℚ) * 2 ^ k := mul_le_mul_of_nonneg_right hmq1 (le_of_lt hk0)
  have hhi : (m:ℚ) * 2 ^ k < 2 ^ (k + 23 + 1) := by
    calc (m:ℚ) * 2 ^ k < 2 ^ (24:ℕ) * 2 ^ k :=
          mul_lt_mul_of_pos_right hmq2 hk0
    _ = 2 ^ (k + 23 + 1) := by
          rw [← zpow_natCast (2:ℚ) 24, ← zpow_add₀ (by norm_num : (2:ℚ) ≠ 0)]
          congr 1; omega
  rw [round32_pos_eval _ (k + 23) hx0 hlo hhi]
  have hdiv : (m:ℚ) * 2 ^ k / 2 ^ (k + 23 - 23) = (m:ℚ) := by
    rw [show k + 23 - 23 = k by omega]
    field_simp
  rw [hdiv, rndNE_intCast]
  rw [show k + 23 - 23 = k by omega]

theorem round32_half : round32 (1/2 : ℚ) = 1/2 := by
  have := round32_zpow (-1)
  norm_num at this
  exact this

theorem round32_one : round32 (1 : ℚ) = 1 := by
  have := round32_zpow 0
  norm_num at this
  exact this

theorem round32_two : round32 (2 : ℚ) = 2 := by
  have := round32_zpow 1
  norm_num at this
  exact this

/-! ### Waveform Generator

`PluginProcessor.cpp`, `processBlock` (lines 80-103):
```
float output = 0.0f;
int waveform = waveformParam ? waveformParam->getIndex() : 0;
...
switch (waveform)
{
    case 0: output = std::sin(phase * twoPi); break;
    case 1: output = phase < 0.5f ? 1.0f : -1.0f; break;
    case 2: output = 2.0f * phase - 1.0f; break;
    case 3: output = phase < 0.5f ? 4.0f * phase - 1.0f : 3.0f - 4.0f * phase; break;
}
```
There is no `default` case, so any selector outside 0..3 leaves `output`
at its initialisation value `0.0f`.  `sinf` abstracts the composite
`std::sin(phase * twoPi)` (a transcendental, kept as an oracle). -/

def waveformSample (sinf : ℚ → ℚ) (w : ℤ) (phase : ℚ) : ℚ :=
  if w = 0 then sinf phase
  else if w = 1 then (if phase < 1/2 then 1 else -1)
  else if w = 2 then fsub32 (fmul32 2 phase) 1
  else if w = 3 then
    (if phase < 1/2 then fsub32 (fmul32 4 phase) 1 else fsub32 3 (fmul32 4 phase))
  else 0

/-- C4, counterexample.  An out-of-range selector does not fall back to
Sine: the `switch` has no `default` case, so the sample stays at the
initialisation value `0.0f`.  At phase `1/4` the sine oracle returns `1`
(this matches the real `std::sin`: `sin(2π/4) = 1`, exactly representable),
while selector `4` produces `0 ≠ 1`. -/
theorem c4_counterexample :
    waveformSample (fun _ => 1) 4 (1/4) = 0 ∧
    waveformSample (fun _ => 1) 0 (1/4) = 1 ∧ (0:ℚ) ≠ 1 := by
  refine ⟨?_, ?_, by norm_num⟩ <;> norm_num [waveformSample]

/-- C4, amended.  For every phase and every waveform selector outside the
four defined indices, the waveform generator deterministically produces
silence (`0.0`), because `output` is initialised to `0.0f` and no `switch`
case matches. -/
theorem c4_theorem (sinf : ℚ → ℚ) (w : ℤ) (phase : ℚ)
    (h0 : w ≠ 0) (h1 : w ≠ 1) (h2 : w ≠ 2) (h3 : w ≠ 3) :
    waveformSample sinf w phase = 0 := by
  simp [waveformSample, h0, h1, h2, h3]

/-- C4, witness: the amended claim applied at a concrete out-of-range
selector. -/
theorem c4_witness :
    ((-5:ℤ) ≠ 0 ∧ (-5:ℤ) ≠ 1 ∧ (-5:ℤ) ≠ 2 ∧ (-5:ℤ) ≠ 3) ∧
    waveformSample (fun q => q + 5) (-5) (7/8) = 0 :=
  ⟨⟨by norm_num, by norm_num, by norm_num, by norm_num⟩,
   c4_theorem (fun q => q + 5) (-5) (7/8)
     (by norm_num) (by norm_num) (by norm_num) (by norm_num)⟩

/-! ### Oscillator phase update

`PluginProcessor.cpp`, `processBlock` (lines 85-87):
```
float phaseIncrement = currentFrequency / sampleRate;
phase += phaseIncrement;
if (phase > 1.0f) phase -= 1.0f;
```
Note the strict comparison: a phase of exactly `1.0f` is not wrapped. -/

def phaseStep (inc phase : ℚ) : ℚ :=
  if fadd32 phase inc > 1 then fsub32 (fadd32 phase inc) 1 else fadd32 phase inc

/-- C7, counterexample.  With the frequency parameter at 4000 Hz (inside
the declared 20–20000 range) and sample rate 8000 Hz, the increment is
exactly `1/2`; after two samples the phase is exactly `1.0`, which the
wrap test `phase > 1.0f` does not renormalise, so the phase does not lie
in the half-open interval `[0,1)`. -/
theorem c7_counterexample :
    fdiv32 4000 8000 = 1/2 ∧
    phaseStep (fdiv32 4000 8000) (phaseStep (fdiv32 4000 8000) 0) = 1 ∧
    (1:ℚ) ∉ Set.Ico (0:ℚ) 1 := by
  have hinc : fdiv32 4000 8000 = 1/2 := by
    rw [fdiv32, show (4000:ℚ)/8000 = 1/2 by norm_num, round32_half]
  have hstep1 : phaseStep (1/2 : ℚ) 0 = 1/2 := by
    rw [phaseStep, fadd32, show (0:ℚ) + 1/2 = 1/2 by norm_num, round32_half,
      if_neg (by norm_num)]
  have hstep2 : phaseStep (1/2 : ℚ) (1/2) = 1 := by
    rw [phaseStep, fadd32, show (1:ℚ)/2 + 1/2 = 1 by norm_num, round32_one,
      if_neg (by norm_num)]
  refine ⟨hinc, ?_, by simp⟩
  rw [hinc, hstep1, hstep2]

/-- C7, amended.  The phase is an invariant of the closed interval
`[0,1]` (not the half-open `[0,1)`): whenever the per-sample increment
lies in `[0,1]` — true for all frequencies up to the sample rate — the
updated phase stays in `[0,1]`, and the value `1.0` is actually attained. -/
theorem c7_theorem (inc phase : ℚ) (hi0 : 0 ≤ inc) (hi1 : inc ≤ 1)
    (hp0 : 0 ≤ phase) (hp1 : phase ≤ 1) :
    0 ≤ phaseStep inc phase ∧ phaseStep inc phase ≤ 1 := by
  have hs0 : 0 ≤ fadd32 phase inc := round32_nonneg _ (by linarith)
  have hs2 : fadd32 phase inc ≤ 2 := by
    have := round32_le_zpow (phase + inc) 1 (by linarith) (by norm_num; linarith)
    simpa [fadd32] using this
  rw [phaseStep]
  by_cases hc : fadd32 phase inc > 1
  · rw [if_pos hc]
    constructor
    · exact round32_nonneg _ (by linarith)
    · have := round32_le_zpow (fadd32 phase inc - 1) 0 (by linarith)
        (by norm_num; linarith)
      simpa [fsub32] using this
  · rw [if_neg hc]
    exact ⟨hs0, by linarith [not_lt.mp hc]⟩

/-- C7, witness: the amended claim applied at concrete inputs. -/
theorem c7_witness :
    ((0:ℚ) ≤ 1/2 ∧ (1/2:ℚ) ≤ 1 ∧ (0:ℚ) ≤ 3/4 ∧ (3/4:ℚ) ≤ 1) ∧
    0 ≤ phaseStep (1/2) (3/4) ∧ phaseStep (1/2) (3/4) ≤ 1 :=
  ⟨⟨by norm_num, by norm_num, by norm_num, by norm_num⟩,
   c7_theorem (1/2) (3/4) (by norm_num) (by norm_num) (by norm_num) (by norm_num)⟩

/-! ### Voice Engine state and the per-sample synthesis loop -/

/-- The synthesis state of `SimpleSynthAudioProcessor`: oscillator phase,
envelope, note flag, current frequency and sample rate. -/
structure Voice where
  phase : ℚ
  env : ℚ
  noteOn : Bool
  freq : ℚ
  sr : ℚ

/-- One iteration of the per-sample loop of `processBlock`: envelope
update, waveform-selector read (the value `w`), phase increment and wrap,
waveform generation at the updated phase, scaling by `envelope * gain`.
Returns the written sample and the updated state. -/
def sampleStep (sinf : ℚ → ℚ) (w : ℤ) (gain : ℚ) (v : Voice) : ℚ × Voice :=
  let env2 := envStep v.noteOn v.env
  let ph2 := phaseStep (fdiv32 v.freq v.sr) v.phase
  let out := fmul32 (waveformSample sinf w ph2) (fmul32 env2 gain)
  (out, { v with env := env2, phase := ph2 })

/-- The per-sample loop of `processBlock` as written: `gain` is read once
before the loop, while `reads i` is the value returned by the
`waveformParam->getIndex()` read performed inside the loop at sample `i`. -/
def renderBlockCode (sinf : ℚ → ℚ) (reads : ℕ → ℤ) (gain : ℚ) :
    ℕ → Voice → List ℚ × Voice
  | 0, v => ([], v)
  | n+1, v =>
    let s := sampleStep sinf (reads 0) gain v
    let rest := renderBlockCode sinf (fun i => reads (i+1)) gain n s.2
    (s.1 :: rest.1, rest.2)

/-- Reference implementation following the spec words for C6: the waveform
selector is read exactly once at the start of the block and that single
value `w` is used for every sample. -/
def renderBlockSpec (sinf : ℚ → ℚ) (w : ℤ) (gain : ℚ) :
    ℕ → Voice → List ℚ × Voice
  | 0, v => ([], v)
  | n+1, v =>
    let s := sampleStep sinf w gain v
    let rest := renderBlockSpec sinf w gain n s.2
    (s.1 :: rest.1, rest.2)

theorem envStep_true_zero : envStep true 0 = 5368709/536870912 := by
  exact envStep_true_eval _ _ (-7) (by norm_num [lit001_eq])
    (by norm_num [lit001_eq]) (by norm_num [lit001_eq, rndNE]) (by norm_num)

theorem envStep_true_next : envStep true (5368709/536870912) = 5368709/268435456 := by
  exact envStep_true_eval _ _ (-6) (by norm_num [lit001_eq])
    (by norm_num [lit001_eq]) (by norm_num [lit001_eq, rndNE]) (by norm_num)

theorem round32_l1 : round32 (5368709/536870912 : ℚ) = 5368709/536870912 := by
  have := round32_fix 10737418 (-30) (by norm_num) (by norm_num)
  norm_num at this
  convert this using 2

theorem round32_l2 : round32 (5368709/268435456 : ℚ) = 5368709/268435456 := by
  have := round32_fix 10737418 (-29) (by norm_num) (by norm_num)
  norm_num at this
  convert this using 2

/-- C6, counterexample.  The claim is false as stated: the code reads the
waveform selector once per sample, inside the loop, not once per block.
With a read sequence that returns Square at sample 0 and Sawtooth at
sample 1 (possible when the parameter changes mid-block, e.g. in live
mode), the rendered block differs from the single-read reference: the
frequency parameter is 4000 at sample rate 8000, so the phase reaches
exactly `1` at sample 1, where Sawtooth yields `1` but the reference
Square yields `-1`. -/
theorem c6_counterexample :
    renderBlockCode (fun _ => 0) (fun i => if i = 0 then 1 else 2) 1 2
      ⟨0, 0, true, 4000, 8000⟩ ≠
    renderBlockSpec (fun _ => 0) ((fun i : ℕ => if i = 0 then (1:ℤ) else 2) 0) 1 2
      ⟨0, 0, true, 4000, 8000⟩ := by
  have hinc : fdiv32 4000 8000 = 1/2 := by
    rw [fdiv32, show (4000:ℚ)/8000 = 1/2 by norm_num, round32_half]
  have hstep1 : phaseStep (1/2 : ℚ) 0 = 1/2 := by
    rw [phaseStep, fadd32, show (0:ℚ) + 1/2 = 1/2 by norm_num, round32_half,
      if_neg (by norm_num)]
  have hstep2 : phaseStep (1/2 : ℚ) (1/2) = 1 := by
    rw [phaseStep, fadd32, show (1:ℚ)/2 + 1/2 = 1 by norm_num, round32_one,
      if_neg (by norm_num)]
  have hw1 : waveformSample (fun _ => 0) 1 (1/2) = -1 := by
    norm_num [waveformSample]
  have hw1' : waveformSample (fun _ => 0) 1 1 = -1 := by
    norm_num [waveformSample]
  have hw2 : waveformSample (fun _ => 0) 2 1 = 1 := by
    rw [waveformSample]
    norm_num [fmul32, fsub32, show (2:ℚ) * 1 = 2 by norm_num, round32_two,
      show (2:ℚ) - 1 = 1 by norm_num, round32_one]
  have hm1 : fmul32 (5368709/536870912 : ℚ) 1 = 5368709/536870912 := by
    rw [fmul32, mul_one, round32_l1]
  have hm2 : fmul32 (5368709/268435456 : ℚ) 1 = 5368709/268435456 := by
    rw [fmul32, mul_one, round32_l2]
  have ho1 : fmul32 (-1) (5368709/536870912 : ℚ) = -(5368709/536870912) := by
    rw [fmul32, neg_one_mul, round32_neg, round32_l1]
  have ho2 : fmul32 (1:ℚ) (5368709/268435456 : ℚ) = 5368709/268435456 := by
    rw [fmul32, one_mul, round32_l2]
  have ho2' : fmul32 (-1 : ℚ) (5368709/268435456 : ℚ) = -(5368709/268435456) := by
    rw [fmul32, neg_one_mul, round32_neg, round32_l2]
  have hcode : renderBlockCode (fun _ => 0) (fun i => if i = 0 then 1 else 2) 1 2
      ⟨0, 0, true, 4000, 8000⟩ =
      ([-(5368709/536870912), 5368709/268435456],
        ⟨1, 5368709/268435456, true, 4000, 8000⟩) := by
    rw [show (2:ℕ) = 1+1 from rfl, renderBlockCode,
      show (1:ℕ) = 0+1 from rfl, renderBlockCode, renderBlockCode]
    simp only [sampleStep]
    norm_num [hinc, envStep_true_zero, envStep_true_next, hstep1, hstep2,
      hw1, hw2, hm1, hm2, ho1, ho2]
  have hspec : renderBlockSpec (fun _ => 0)
      ((fun i : ℕ => if i = 0 then (1:ℤ) else 2) 0) 1 2
      ⟨0, 0, true, 4000, 8000⟩ =
      ([-(5368709/536870912), -(5368709/268435456)],
        ⟨1, 5368709/268435456, true, 4000, 8000⟩) := by
    rw [show ((fun i : ℕ => if i = 0 then (1:ℤ) else 2) 0) = 1 by norm_num]
    rw [show (2:ℕ) = 1+1 from rfl, renderBlockSpec,
      show (1:ℕ) = 0+1 from rfl, renderBlockSpec, renderBlockSpec]
    simp only [sampleStep]
    norm_num [hinc, envStep_true_zero, envStep_true_next, hstep1, hstep2,
      hw1, hw1', hm1, hm2, ho1, ho2']
  rw [hcode, hspec]
  intro hcontra
  have hl := congrArg Prod.fst hcontra
  rw [List.cons.injEq, List.cons.injEq] at hl
  have h2 := hl.2.1
  norm_num at h2

/-- C6, amended.  The gain is read exactly once per block, before the
sample loop (it is a parameter of `renderBlockCode`, not of the per-sample
read sequence); the waveform selector, however, is read once per sample
inside the loop.  The per-block-read reference implementation is
equivalent to the code exactly when the selector reads are constant over
the block — in particular in offline mode, where nothing writes the
parameter store mid-block. -/
theorem c6_theorem (sinf : ℚ → ℚ) :
    ∀ (n : ℕ) (reads : ℕ → ℤ) (gain : ℚ) (v : Voice),
      (∀ i, reads i = reads 0) →
      renderBlockCode sinf reads gain n v = renderBlockSpec sinf (reads 0) gain n v := by
  intro n
  induction n with
  | zero =>
    intro reads gain v h
    rw [renderBlockCode, renderBlockSpec]
  | succ m ih =>
    intro reads gain v h
    rw [renderBlockCode, renderBlockSpec]
    have hshift : ∀ i, (fun i => reads (i+1)) i = (fun i => reads (i+1)) 0 := by
      intro i
      simp only
      rw [h (i+1), ← h (0+1)]
    have hrec := ih (fun i => reads (i+1)) gain
      (sampleStep sinf (reads 0) gain v).2 hshift
    rw [hrec]
    have h10 : reads (0+1) = reads 0 := h (0+1)
    simp only [h10]

/-- C6, witness: the amended claim applied at a concrete constant read
sequence. -/
theorem c6_witness :
    (∀ i : ℕ, (fun _ : ℕ => (3:ℤ)) i = (fun _ : ℕ => (3:ℤ)) 0) ∧
    renderBlockCode (fun _ => 0) (fun _ => 3) 1 2 ⟨0, 0, true, 4000, 8000⟩ =
      renderBlockSpec (fun _ => 0) ((fun _ : ℕ => (3:ℤ)) 0) 1 2
        ⟨0, 0, true, 4000, 8000⟩ :=
  ⟨fun _ => rfl,
   c6_theorem (fun _ => 0) 2 (fun _ => 3) 1 ⟨0, 0, true, 4000, 8000⟩ (fun _ => rfl)⟩

/-- Bound for the waveform generator: every selector yields a sample in
`[-1,1]` whenever the phase is in `[0,1]` and the sine oracle is bounded. -/
theorem waveformSample_abs_le (sinf : ℚ → ℚ) (hs : ∀ p, |sinf p| ≤ 1)
    (w : ℤ) (phase : ℚ) (hp0 : 0 ≤ phase) (hp1 : phase ≤ 1) :
    |waveformSample sinf w phase| ≤ 1 := by
  rw [waveformSample]
  by_cases h0 : w = 0
  · rw [if_pos h0]; exact hs phase
  rw [if_neg h0]
  by_cases h1 : w = 1
  · rw [if_pos h1]
    split_ifs <;> norm_num
  rw [if_neg h1]
  have hx2 : 0 ≤ fmul32 2 phase ∧ fmul32 2 phase ≤ 2 := by
    constructor
    · exact round32_nonneg _ (by linarith)
    · have := round32_le_zpow (2 * phase) 1 (by linarith) (by norm_num; linarith)
      simpa [fmul32] using this
  by_cases h2 : w = 2
  · rw [if_pos h2, fsub32]
    apply round32_abs_le_one
    rw [abs_le]
    constructor <;> linarith [hx2.1, hx2.2]
  rw [if_neg h2]
  by_cases h3 : w = 3
  · rw [if_pos h3]
    by_cases hc : phase < 1/2
    · rw [if_pos hc]
      have hx4 : 0 ≤ fmul32 4 phase ∧ fmul32 4 phase ≤ 2 := by
        constructor
        · exact round32_nonneg _ (by linarith)
        · have := round32_le_zpow (4 * phase) 1 (by linarith) (by norm_num; linarith)
          simpa [fmul32] using this
      rw [fsub32]
      apply round32_abs_le_one
      rw [abs_le]
      constructor <;> linarith [hx4.1, hx4.2]
    · rw [if_neg hc]
      push_neg at hc
      have hx4 : 2 ≤ fmul32 4 phase ∧ fmul32 4 phase ≤ 4 := by
        constructor
        · have := round32_zpow_le (4 * phase) 1 (by norm_num; linarith)
          simpa [fmul32] using this
        · have h := round32_le_zpow (4 * phase) 2 (by linarith) (by norm_num; linarith)
          rw [show ((2:ℚ) ^ (2:ℤ)) = 4 by norm_num] at h
          simpa [fmul32] using h
      rw [fsub32]
      apply round32_abs_le_one
      rw [abs_le]
      constructor <;> linarith [hx4.1, hx4.2]
  rw [if_neg h3]
  norm_num

/-- C9.  Every sample written to the audio block lies in `[-1,1]`: for
every phase in `[0,1)` each waveform formula yields a value in `[-1,1]`
(given the sine bound), and after the scaling `output *= envelope * gain`
with envelope and gain in `[0,1]` the written sample remains in `[-1,1]`. -/
theorem c9_theorem (sinf : ℚ → ℚ) (hs : ∀ p, |sinf p| ≤ 1) :
    (∀ (w : ℤ) (phase : ℚ), 0 ≤ phase → phase < 1 →
      |waveformSample sinf w phase| ≤ 1) ∧
    (∀ (w : ℤ) (phase env gain : ℚ), 0 ≤ phase → phase < 1 →
      0 ≤ env → env ≤ 1 → 0 ≤ gain → gain ≤ 1 →
      |fmul32 (waveformSample sinf w phase) (fmul32 env gain)| ≤ 1) := by
  constructor
  · intro w phase hp0 hp1
    exact waveformSample_abs_le sinf hs w phase hp0 (le_of_lt hp1)
  · intro w phase env gain hp0 hp1 he0 he1 hg0 hg1
    have hwav := waveformSample_abs_le sinf hs w phase hp0 (le_of_lt hp1)
    have hmul : 0 ≤ fmul32 env gain ∧ fmul32 env gain ≤ 1 := by
      constructor
      · exact round32_nonneg _ (by positivity)
      · have := round32_le_zpow (env * gain) 0 (by positivity)
          (by norm_num; exact mul_le_one₀ he1 hg0 hg1)
        simpa [fmul32] using this
    rw [fmul32]
    apply round32_abs_le_one
    rw [abs_mul]
    apply mul_le_one₀ hwav (abs_nonneg _)
    rw [abs_of_nonneg hmul.1]
    exact hmul.2

/-- C9, witness: the bound applied at a concrete sample. -/
theorem c9_witness :
    (∀ p : ℚ, |(fun _ : ℚ => (1:ℚ)/2) p| ≤ 1) ∧
    ((0:ℚ) ≤ 1/4 ∧ (1/4:ℚ) < 1 ∧ (0:ℚ) ≤ 1/2 ∧ (1/2:ℚ) ≤ 1) ∧
    |waveformSample (fun _ => 1/2) 2 (1/4)| ≤ 1 ∧
    |fmul32 (waveformSample (fun _ => 1/2) 2 (1/4)) (fmul32 (1/2) (1/2))| ≤ 1 :=
  ⟨fun _ => by rw [abs_le]; constructor <;> norm_num,
   ⟨by norm_num, by norm_num, by norm_num, by norm_num⟩,
   (c9_theorem (fun _ => 1/2) (fun _ => by rw [abs_le]; constructor <;> norm_num)).1
     2 (1/4) (by norm_num) (by norm_num),
   (c9_theorem (fun _ => 1/2) (fun _ => by rw [abs_le]; constructor <;> norm_num)).2
     2 (1/4) (1/2) (1/2) (by norm_num) (by norm_num) (by norm_num) (by norm_num)
     (by norm_num) (by norm_num)⟩

/-! ### MIDI messages and the Voice Engine event handling

A `juce::MidiMessage` stores raw bytes; velocities are data bytes 0..127.
`emptySysEx` is the default-constructed `MidiMessage` (an empty sysex),
which is what the output parameter of the reader holds before any assignment. -/

inductive MidiMsgM where
  | noteOnM (ch note vel : ℕ)
  | noteOffM (ch note vel : ℕ)
  | ctrlM (ch num val : ℕ)
  | emptySysEx
deriving DecidableEq

/-- The JUCE test `msg.isNoteOn()`: status nibble 0x9 and a nonzero velocity byte. -/
def isNoteOnM : MidiMsgM → Bool
  | .noteOnM _ _ vel => vel ≠ 0
  | _ => false

/-- The JUCE test `msg.isNoteOff()` (with its default argument): status nibble 0x8, or a
NoteOn with velocity byte zero. -/
def isNoteOffM : MidiMsgM → Bool
  | .noteOffM _ _ _ => true
  | .noteOnM _ _ vel => vel = 0
  | _ => false

/-- The MIDI dispatch of `processBlock` (lines 49-62): `isNoteOn` sets the
frequency from the note number (`noteHz` abstracts
`juce::MidiMessage::getMidiNoteInHertz`, whose values are irrational),
sets the note flag and resets the envelope to `0`; otherwise `isNoteOff`
clears the note flag; any other message is ignored. -/
def handleEventM (noteHz : ℕ → ℚ) (v : Voice) (m : MidiMsgM) : Voice :=
  match m with
  | .noteOnM _ note vel =>
    if vel ≠ 0 then { v with freq := noteHz note, noteOn := true, env := 0 }
    else { v with noteOn := false }
  | .noteOffM _ _ _ => { v with noteOn := false }
  | .ctrlM _ _ _ => v
  | .emptySysEx => v

/-- One call of `processBlock`: apply all queued MIDI messages in order,
then run the per-sample synthesis loop for `n` samples. -/
def processBlockM (noteHz : ℕ → ℚ) (sinf : ℚ → ℚ) (reads : ℕ → ℤ) (gain : ℚ)
    (events : List MidiMsgM) (n : ℕ) (v : Voice) : List ℚ × Voice :=
  renderBlockCode sinf reads gain n (events.foldl (handleEventM noteHz) v)

/-- A run of the engine over consecutive blocks, concatenating the output. -/
def runBlocksM (noteHz : ℕ → ℚ) (sinf : ℚ → ℚ) (reads : ℕ → ℤ) (gain : ℚ)
    (n : ℕ) : List (List MidiMsgM) → Voice → List ℚ
  | [], _ => []
  | es :: rest, v =>
    let r := processBlockM noteHz sinf reads gain es n v
    r.1 ++ runBlocksM noteHz sinf reads gain n rest r.2

/-- The velocity decoding of the reader (`buffer[2] / 127.0f`), as an exact
rational: positive and at most `1` exactly when the byte is in 1..127. -/
def velScaled (v : ℕ) : ℚ := (v : ℚ) / 127

/-- Two messages that are identical except possibly for the velocity byte
of a NoteOn, with both velocities in 1..127. -/
def velEquivM : MidiMsgM → MidiMsgM → Prop
  | .noteOnM c1 n1 v1, .noteOnM c2 n2 v2 =>
      c1 = c2 ∧ n1 = n2 ∧ 1 ≤ v1 ∧ v1 ≤ 127 ∧ 1 ≤ v2 ∧ v2 ≤ 127
  | m1, m2 => m1 = m2

theorem handleEventM_velEquiv (noteHz : ℕ → ℚ) (v : Voice) (m1 m2 : MidiMsgM)
    (h : velEquivM m1 m2) : handleEventM noteHz v m1 = handleEventM noteHz v m2 := by
  cases m1 with
  | noteOnM c1 n1 v1 =>
    cases m2 with
    | noteOnM c2 n2 v2 =>
      obtain ⟨hc, hn, h11, h17, h21, h27⟩ := h
      subst hc
      subst hn
      rw [handleEventM, handleEventM, if_pos (by omega), if_pos (by omega)]
    | noteOffM c2 n2 v2 => exact absurd h (by simp [velEquivM])
    | ctrlM c2 n2 v2 => exact absurd h (by simp [velEquivM])
    | emptySysEx => exact absurd h (by simp [velEquivM])
  | noteOffM c1 n1 v1 =>
    have : m2 = MidiMsgM.noteOffM c1 n1 v1 := by
      cases m2 <;> simp_all [velEquivM]
    rw [this]
  | ctrlM c1 n1 v1 =>
    have : m2 = MidiMsgM.ctrlM c1 n1 v1 := by
      cases m2 <;> simp_all [velEquivM]
    rw [this]
  | emptySysEx =>
    have : m2 = MidiMsgM.emptySysEx := by
      cases m2 <;> simp_all [velEquivM]
    rw [this]

theorem foldl_handleEventM_velEquiv (noteHz : ℕ → ℚ) :
    ∀ (es1 es2 : List MidiMsgM), List.Forall₂ velEquivM es1 es2 →
    ∀ v : Voice, es1.foldl (handleEventM noteHz) v = es2.foldl (handleEventM noteHz) v := by
  intro es1 es2 h
  induction h with
  | nil => intro v; rfl
  | cons hab htl ih =>
    intro v
    simp only [List.foldl_cons]
    rw [handleEventM_velEquiv noteHz v _ _ hab]
    exact ih _

/-- C10.  The rendered audio is independent of NoteOn velocity: two runs
on block-event sequences that are identical except that corresponding
NoteOn events carry different velocity bytes (each in 1..127) produce
identical output; and the boundary decoding maps bytes 1..127 into
`(0,1]`.  Velocity is decoded at the MIDI boundary but never reaches
amplitude, frequency, or envelope. -/
theorem c10_theorem :
    (∀ (noteHz : ℕ → ℚ) (sinf : ℚ → ℚ) (reads : ℕ → ℤ) (gain : ℚ) (n : ℕ)
      (bs1 bs2 : List (List MidiMsgM)) (v : Voice),
      List.Forall₂ (List.Forall₂ velEquivM) bs1 bs2 →
      runBlocksM noteHz sinf reads gain n bs1 v =
        runBlocksM noteHz sinf reads gain n bs2 v) ∧
    (∀ b : ℕ, 1 ≤ b → b ≤ 127 → 0 < velScaled b ∧ velScaled b ≤ 1) := by
  constructor
  · intro noteHz sinf reads gain n bs1 bs2 v h
    induction h generalizing v with
    | nil => rfl
    | cons hab htl ih =>
      rw [runBlocksM, runBlocksM]
      simp only [processBlockM]
      rw [foldl_handleEventM_velEquiv noteHz _ _ hab v]
      rw [ih]
  · intro b h1 h127
    constructor
    · rw [velScaled]
      have : (0:ℚ) < (b:ℚ) := by exact_mod_cast h1
      positivity
    · rw [velScaled, div_le_one (by norm_num)]
      exact_mod_cast h127

/-- C10, witness: two one-block runs differing only in the NoteOn velocity
byte (100 versus 127) produce identical output. -/
theorem c10_witness :
    List.Forall₂ (List.Forall₂ velEquivM)
      [[MidiMsgM.noteOnM 1 69 100]] [[MidiMsgM.noteOnM 1 69 127]] ∧
    runBlocksM (fun _ => 440) (fun _ => 0) (fun _ => 0) 1 1
      [[MidiMsgM.noteOnM 1 69 100]] ⟨0, 0, false, 440, 44100⟩ =
      runBlocksM (fun _ => 440) (fun _ => 0) (fun _ => 0) 1 1
        [[MidiMsgM.noteOnM 1 69 127]] ⟨0, 0, false, 440, 44100⟩ ∧
    (1 ≤ 100 ∧ 100 ≤ 127 ∧ 0 < velScaled 100 ∧ velScaled 100 ≤ 1) := by
  have hpair : List.Forall₂ (List.Forall₂ velEquivM)
      [[MidiMsgM.noteOnM 1 69 100]] [[MidiMsgM.noteOnM 1 69 127]] := by
    refine List.Forall₂.cons (List.Forall₂.cons ?_ List.Forall₂.nil) List.Forall₂.nil
    exact ⟨rfl, rfl, by norm_num, by norm_num, by norm_num, by norm_num⟩
  refine ⟨hpair, ?_, ?_⟩
  · exact c10_theorem.1 (fun _ => 440) (fun _ => 0) (fun _ => 0) 1 1
      [[MidiMsgM.noteOnM 1 69 100]] [[MidiMsgM.noteOnM 1 69 127]]
      ⟨0, 0, false, 440, 44100⟩ hpair
  · exact ⟨by norm_num, by norm_num, (c10_theorem.2 100 (by norm_num) (by norm_num)).1,
      (c10_theorem.2 100 (by norm_num) (by norm_num)).2⟩

/-! ### The offline render loop (`SimpleSynthHost/Source/Main.cpp`)

`StdinMidiReader::readNextEvent` reads a status byte; 0x80/0x90/0xB0 take
two data bytes, 0xC0/0xD0 take one, anything else returns `false` having
consumed just the status byte.  For 0xC0/0xD0 the function returns `true`
WITHOUT assigning the output parameter `msg`, so the caller sees the
previous message again.  A read that hits end of input sets the eof flag of the
stream.  Input bytes are in 0..255, so `st & 0xF0` is `st / 16 * 16`.

`OfflineRenderer::render` (lines 242-371): while
`totalSamplesProcessed < maxSamples`, read all currently available
messages into the MidiBuffer (when the stream is not closed), otherwise
re-feed the remembered sustain NoteOn while `blockNum < 100`; then render
a 512-sample block, write it, and advance
`totalSamplesProcessed += blockSize` (a 32-bit `int`, modelled mod 2^32
with the twos-complement reinterpretation `int32ToInt`). -/

def readNextEvent (bytes : List ℕ) (msg : MidiMsgM) :
    Bool × MidiMsgM × List ℕ × Bool :=
  match bytes with
  | [] => (false, msg, [], true)
  | st :: rest =>
    if st / 16 = 8 ∨ st / 16 = 9 ∨ st / 16 = 11 then
      match rest with
      | d1 :: d2 :: rest2 =>
        if st / 16 = 9 then (true, .noteOnM (st % 16 + 1) d1 d2, rest2, false)
        else if st / 16 = 8 then (true, .noteOffM (st % 16 + 1) d1 d2, rest2, false)
        else (true, .ctrlM (st % 16 + 1) d1 d2, rest2, false)
      | _ => (false, msg, [], true)
    else if st / 16 = 12 ∨ st / 16 = 13 then
      match rest with
      | _ :: rest2 => (true, msg, rest2, false)
      | [] => (false, msg, [], true)
    else
      (false, msg, rest, false)

/-- The per-block `while (midiReader.readNextEvent(msg))` loop: collects
the messages added to the MidiBuffer, threads the function-local `msg`
(fresh default-constructed each block) and the sustain statics, and
reports the remaining input and whether eof was hit.  Fuel-driven; every
successful read consumes at least two bytes, so `bytes.length + 1` fuel
is never exhausted. -/
def readEventsAux : ℕ → List ℕ → MidiMsgM → Option MidiMsgM →
    List MidiMsgM × List ℕ × Bool × Option MidiMsgM
  | 0, bytes, _, sust => ([], bytes, false, sust)
  | fuel+1, bytes, msg, sust =>
    let r := readNextEvent bytes msg
    if r.1 then
      let m2 := r.2.1
      let sust2 := if isNoteOnM m2 then some m2
        else if isNoteOffM m2 then none else sust
      let rec2 := readEventsAux fuel r.2.2.1 m2 sust2
      (m2 :: rec2.1, rec2.2)
    else
      ([], r.2.2.1, r.2.2.2, sust)

def readBlockEvents (bytes : List ℕ) (sust : Option MidiMsgM) :
    List MidiMsgM × List ℕ × Bool × Option MidiMsgM :=
  readEventsAux (bytes.length + 1) bytes .emptySysEx sust

/-- State of the offline render loop across block iterations. -/
structure LoopSt where
  input : List ℕ
  closed : Bool
  sust : Option MidiMsgM
  blockNum : ℕ
  counter : ℕ
  written : ℕ
deriving DecidableEq

def initLoop (input : List ℕ) : LoopSt :=
  { input := input, closed := false, sust := none, blockNum := 0,
    counter := 0, written := 0 }

/-- The unconditional per-block bookkeeping: `blockNum++`,
`totalSamplesProcessed += blockSize`, and 512 more samples written per
channel; the stream state is untouched. -/
def bumpLoop (s : LoopSt) : LoopSt :=
  { input := s.input, closed := s.closed, sust := s.sust,
    blockNum := s.blockNum + 1, counter := (s.counter + 512) % 4294967296,
    written := s.written + 512 }

/-- One iteration of the render loop body.  Returns the new state and the
MIDI messages fed to `processBlock` in this block. -/
def stepBlock (s : LoopSt) : LoopSt × List MidiMsgM :=
  if s.closed = false then
    let r := readBlockEvents s.input s.sust
    ({ input := r.2.1, closed := r.2.2.1, sust := r.2.2.2,
       blockNum := s.blockNum + 1, counter := (s.counter + 512) % 4294967296,
       written := s.written + 512 }, r.1)
  else
    match s.sust with
    | some m => if s.blockNum < 100 then (bumpLoop s, [m]) else (bumpLoop s, [])
    | none => (bumpLoop s, [])

/-- State before block `n` of the render loop. -/
def loopIter (input : List ℕ) : ℕ → LoopSt
  | 0 => initLoop input
  | n+1 => (stepBlock (loopIter input n)).1

/-- The MIDI messages fed to the plugin in block `n`. -/
def fedAt (input : List ℕ) (n : ℕ) : List MidiMsgM :=
  (stepBlock (loopIter input n)).2

/-- Reinterpretation of a 32-bit unsigned value in twos-complement. -/
def int32ToInt (x : ℕ) : ℤ :=
  if x < 2147483648 then (x : ℤ) else (x : ℤ) - 4294967296

/-- The loop guard `totalSamplesProcessed < maxSamples`. -/
def loopGuard (maxS : ℤ) (s : LoopSt) : Prop := int32ToInt s.counter < maxS

/-- The value of `maxSamples` in finite-duration mode: `(int)(duration * sampleRate)`
(truncation; the duration is nonnegative, so this is the floor). -/
def maxSamplesOf (d : ℚ) (r : ℕ) : ℤ := Int.floor (d * r)

/-- When the stream is closed, a note is remembered, and the sustain
window `blockNum < 100` has expired, the loop feeds no MIDI and only does
the bookkeeping. -/
theorem stepBlock_closed_expired (s : LoopSt) (m : MidiMsgM)
    (hc : s.closed = true) (hs : s.sust = some m) (hb : ¬ s.blockNum < 100) :
    stepBlock s = (bumpLoop s, []) := by
  unfold stepBlock
  simp [hc, hs, hb]

theorem stepBlock_fields (s : LoopSt) :
    (stepBlock s).1.counter = (s.counter + 512) % 4294967296 ∧
    (stepBlock s).1.written = s.written + 512 ∧
    (stepBlock s).1.blockNum = s.blockNum + 1 := by
  by_cases hc : s.closed = false
  · unfold stepBlock
    rw [if_pos hc]
    exact ⟨rfl, rfl, rfl⟩
  · have hbump : (stepBlock s).1 = bumpLoop s := by
      unfold stepBlock
      rw [if_neg hc]
      cases s.sust with
      | none => rfl
      | some m =>
        by_cases hb : s.blockNum < 100
        · simp [hb]
        · simp [hb]
    rw [hbump]
    exact ⟨rfl, rfl, rfl⟩

theorem loopIter_counters (input : List ℕ) :
    ∀ n : ℕ, (loopIter input n).counter = 512 * n % 4294967296 ∧
      (loopIter input n).written = 512 * n ∧
      (loopIter input n).blockNum = n := by
  intro n
  induction n with
  | zero => exact ⟨rfl, rfl, rfl⟩
  | succ m ih =>
    obtain ⟨hc, hw, hb⟩ := ih
    obtain ⟨sc, sw, sb⟩ := stepBlock_fields (loopIter input m)
    rw [loopIter]
    refine ⟨?_, ?_, ?_⟩
    · rw [sc, hc]; omega
    · rw [sw, hw]; omega
    · rw [sb, hb]

/-- C1, code_bug evidence.  The sustain-replay window is gated by
`blockNum < 100`, where `blockNum` counts from the start of the render
loop, not from stream closure (the code comment says "first 100 blocks
after stdin closes").  Feeding 101 unsupported status bytes (0xFF, one
consumed per block) followed by a NoteOn and EOF makes the stream close
during block 101 with the note still on; from block 102 on, no synthetic
NoteOn is ever fed, although the claim requires 100 re-sends counted from
closure. -/
theorem c1_theorem :
    (loopIter (List.replicate 101 255 ++ [144, 69, 127]) 101).closed = false ∧
    (loopIter (List.replicate 101 255 ++ [144, 69, 127]) 102).closed = true ∧
    (loopIter (List.replicate 101 255 ++ [144, 69, 127]) 102).sust =
      some (MidiMsgM.noteOnM 1 69 127) ∧
    (∀ n : ℕ, 102 ≤ n →
      fedAt (List.replicate 101 255 ++ [144, 69, 127]) n = []) := by
  refine ⟨by decide, by decide, by decide, ?_⟩
  have hinv : ∀ n : ℕ, 102 ≤ n →
      (loopIter (List.replicate 101 255 ++ [144, 69, 127]) n).closed = true ∧
      (loopIter (List.replicate 101 255 ++ [144, 69, 127]) n).sust =
        some (MidiMsgM.noteOnM 1 69 127) ∧
      100 ≤ (loopIter (List.replicate 101 255 ++ [144, 69, 127]) n).blockNum := by
    intro n hn
    induction n with
    | zero => omega
    | succ m ih =>
      rcases Nat.lt_or_ge m 102 with h | h
      · have hm : m = 101 := by omega
        subst hm
        exact ⟨by decide, by decide, by decide⟩
      · obtain ⟨hc, hs, hb⟩ := ih (by omega)
        rw [loopIter,
          stepBlock_closed_expired _ _ hc hs (by omega)]
        exact ⟨hc, hs, by rw [bumpLoop]; simp only; omega⟩
  intro n hn
  obtain ⟨hc, hs, hb⟩ := hinv n hn
  rw [fedAt,
    stepBlock_closed_expired _ _ hc hs (by omega)]

/-- C1, witness: the no-resend conclusion applied at block 105. -/
theorem c1_witness :
    102 ≤ 105 ∧ fedAt (List.replicate 101 255 ++ [144, 69, 127]) 105 = [] :=
  ⟨by norm_num, c1_theorem.2.2.2 105 (by norm_num)⟩

/-- C2, code_bug evidence.  With duration unset, `maxSamples` is the
sentinel `2147483647` (INT_MAX) and the loop guard compares it against the
32-bit counter `totalSamplesProcessed`, which advances in steps of 512.
Every reachable counter value is a multiple of 512 reinterpreted in twos-
complement, and no such value is ever `≥ 2147483647`: the guard holds
after every number of blocks, for every input, so the render loop never
terminates (the claim says its total length is bounded). -/
theorem c2_theorem : ∀ (input : List ℕ) (n : ℕ),
    loopGuard 2147483647 (loopIter input n) := by
  intro input n
  have hc := (loopIter_counters input n).1
  rw [loopGuard, hc, int32ToInt]
  have hdvd : 512 ∣ 512 * n % 4294967296 := by
    rw [Nat.dvd_mod_iff (by norm_num)]
    exact Dvd.intro n rfl
  have hlt : 512 * n % 4294967296 < 4294967296 := Nat.mod_lt _ (by norm_num)
  obtain ⟨m, hm⟩ := hdvd
  rw [hm] at hlt ⊢
  by_cases hcase : 512 * m < 2147483648
  · rw [if_pos hcase]
    omega
  · rw [if_neg hcase]
    omega

/-- C3, code_bug evidence.  Decoding a 0xC0-status message consumes
exactly one data byte (the stream stays aligned) but returns `true`
without assigning the output message, so the loop adds the previous
message to the MidiBuffer again: feeding `[0x90,60,100, 0xC0,5]` delivers
the NoteOn to the voice engine twice, although the claim says a 0xC0
message produces no structured event. -/
theorem c3_theorem :
    (∀ (msg : MidiMsgM) (d : ℕ) (rest : List ℕ),
      readNextEvent (192 :: d :: rest) msg = (true, msg, rest, false)) ∧
    fedAt [144, 60, 100, 192, 5] 0 =
      [MidiMsgM.noteOnM 1 60 100, MidiMsgM.noteOnM 1 60 100] := by
  constructor
  · intro msg d rest
    rfl
  · decide

/-- C3, witness: the reader equation applied at a concrete message and
data byte. -/
theorem c3_witness :
    readNextEvent (192 :: 5 :: [7]) (MidiMsgM.noteOnM 1 60 100) =
      (true, MidiMsgM.noteOnM 1 60 100, [7], false) :=
  c3_theorem.1 (MidiMsgM.noteOnM 1 60 100) 5 [7]

/-- C5, counterexample.  With duration `0.01` s at 44100 Hz,
`maxSamples = (int)(0.01 * 44100) = 441`; the loop guard still holds
before block 0 and fails only after one full 512-sample block, so 512
samples per channel are written instead of the claimed `d·r = 441`: the
loop stops at the next block boundary, not exactly at the configured
duration. -/
theorem c5_counterexample :
    maxSamplesOf (1/100) 44100 = 441 ∧
    loopGuard 441 (loopIter [] 0) ∧
    ¬ loopGuard 441 (loopIter [] 1) ∧
    (loopIter [] 1).written = 512 ∧ (512 : ℕ) ≠ 441 := by
  refine ⟨?_, ?_, ?_, by decide, by norm_num⟩
  · rw [maxSamplesOf]
    norm_num
  · unfold loopGuard
    decide
  · unfold loopGuard
    decide

/-- C5, amended.  For a configured `maxSamples` with
`0 < maxSamples ≤ 2^31 - 512`, the loop terminates: the guard holds for
every block before `⌈maxSamples/512⌉` and fails there, and the number of
samples written per channel is `512 * ⌈maxSamples/512⌉` — the duration
rounded up to the next block boundary, which equals `d·r` only when that
product is a multiple of the block size. -/
theorem c5_theorem (maxS : ℕ) (input : List ℕ)
    (h0 : 0 < maxS) (h1 : maxS ≤ 2147483136) :
    (∀ n : ℕ, n < (maxS + 511) / 512 → loopGuard (maxS : ℤ) (loopIter input n)) ∧
    ¬ loopGuard (maxS : ℤ) (loopIter input ((maxS + 511) / 512)) ∧
    (loopIter input ((maxS + 511) / 512)).written =
      512 * ((maxS + 511) / 512) := by
  refine ⟨?_, ?_, ?_⟩
  · intro n hn
    have hc := (loopIter_counters input n).1
    rw [loopGuard, hc, int32ToInt]
    have hsmall : 512 * n % 4294967296 = 512 * n := by
      apply Nat.mod_eq_of_lt
      omega
    rw [hsmall, if_pos (by omega)]
    have : 512 * n < maxS := by omega
    exact_mod_cast this
  · have hc := (loopIter_counters input ((maxS + 511) / 512)).1
    rw [loopGuard, hc, int32ToInt]
    have hsmall : 512 * ((maxS + 511) / 512) % 4294967296 =
        512 * ((maxS + 511) / 512) := by
      apply Nat.mod_eq_of_lt
      omega
    rw [hsmall, if_pos (by omega)]
    have : maxS ≤ 512 * ((maxS + 511) / 512) := by omega
    push_neg
    exact_mod_cast this
  · exact (loopIter_counters input ((maxS + 511) / 512)).2.1

/-- C5, witness: the amended claim applied at `maxSamples = 441`. -/
theorem c5_witness :
    (0 < 441 ∧ 441 ≤ 2147483136) ∧
    ¬ loopGuard ((441:ℕ) : ℤ) (loopIter [] ((441 + 511) / 512)) ∧
    (loopIter [] ((441 + 511) / 512)).written = 512 * ((441 + 511) / 512) :=
  ⟨⟨by norm_num, by norm_num⟩,
   (c5_theorem 441 [] (by norm_num) (by norm_num)).2.1,
   (c5_theorem 441 [] (by norm_num) (by norm_num)).2.2⟩

end SimpleSynth
